import Mathlib

/-!
# Derived permissions of sdcardfs

A shallow embedding of `fs/sdcardfs/derived_perm.c`: the permission-class
derivation (`get_derived_permission_new`), the ownership fix-up
(`fixup_lower_ownership`) and the obb path helpers (`need_graft_path`,
`is_base_obbpath`, `setup_obb_dentry`).

Conventions of the embedding.

* A name (`const char *`) is the list of characters before the terminating NUL.
* Identifiers (`uid_t`, `gid_t`, `userid_t`, `appid_t`) are natural numbers. The one
  place where the file converts a wider integer into one of them is the store of
  `simple_strtoul`'s `unsigned long` into `userid` (line 73): it keeps the low
  `userid_bits` bits, the width of `userid_t`, which `sdcardfs.h` declares and
  which is a field of `Collab`.
* The source reads the derived state of an inode both as `info->perm` (derivation)
  and as `info->data->perm` (fix-up); both are the one record `sdcardfs_inode_data`.
* `get_derived_permission` (line 109) hands `&dentry->d_name` to a parameter that
  line 48 declares as a `struct dentry *`, so the derivation it starts does not
  read the dentry's name; what it reads instead is an argument of the definition.
* Everything the file uses from `sdcardfs.h` and from the package list
  (`multiuser_get_uid`, `get_appid`, `get_ext_gid`, the `AID_*` constants, ...)
  is a field of `Collab` and stays a parameter of every definition.
-/

namespace Sdcardfs

/-! ## Data model -/

/-- The permission classes named by the `PERM_*` constants the file uses. -/
inductive perm_t where
  | PERM_INHERIT
  | PERM_PRE_ROOT
  | PERM_ROOT
  | PERM_ANDROID
  | PERM_ANDROID_DATA
  | PERM_ANDROID_OBB
  | PERM_ANDROID_MEDIA
  | PERM_ANDROID_PACKAGE
  | PERM_ANDROID_PACKAGE_CACHE
  deriving DecidableEq

open perm_t

/-- Derived state kept with every sdcardfs inode. -/
structure sdcardfs_inode_data where
  perm : perm_t
  userid : Nat
  d_uid : Nat
  under_android : Bool
  under_obb : Bool
  under_cache : Bool
  deriving DecidableEq

/-- The inode info as the fix-up sees it: its own data (`info->data`) and the data
`top_data_get(info)` hands out. -/
structure sdcardfs_inode_info where
  data : sdcardfs_inode_data
  top : sdcardfs_inode_data
  deriving DecidableEq

/-- Mount options (`sbi->options`). -/
structure sdcardfs_mount_options where
  fs_low_uid : Nat
  fs_low_gid : Nat
  multiuser : Bool
  gid_derivation : Bool
  deriving DecidableEq

/-- Superblock info (`struct sdcardfs_sb_info`), the fields the file reads. -/
structure sdcardfs_sb_info where
  options : sdcardfs_mount_options
  obbpath_s : List Char
  pkgl_id : Nat
  deriving DecidableEq

/-- What `derived_perm.c` takes from `sdcardfs.h`, the package list and the kernel
headers: kept abstract, every theorem holds for all of them. -/
structure Collab where
  multiuser_get_uid : Nat → Nat → Nat
  get_appid : Nat → List Char → Nat
  get_ext_gid : List Char → Nat
  uid_is_app : Nat → Bool
  multiuser_get_ext_gid : Nat → Nat
  multiuser_get_ext_cache_gid : Nat → Nat
  AID_MEDIA_RW : Nat
  AID_MEDIA_OBB : Nat
  S_ISDIR : Nat → Bool
  userid_bits : Nat

/-! ## String helpers of the kernel library -/

/-- The terminating NUL of a C string. -/
def NUL : Char := Char.ofNat 0

/-- Modelled from the spec: `tolower` (kernel ctype helper, not in the translated
file). "Name comparisons are case-insensitive ASCII compares": an ASCII upper-case
letter is mapped to its lower-case letter, any other character is left alone. -/
def tolower (c : Char) : Char :=
  if 'A' ≤ c ∧ c ≤ 'Z' then Char.ofNat (c.toNat + 32) else c

/-- Modelled from the spec: `strcasecmp` (kernel string helper, not in the
translated file), the case-insensitive ASCII compare. It walks both strings while
the lowered characters agree and are not NUL and returns the difference of the
first pair that stops the walk; the end of a list is the NUL. -/
def strcasecmp : List Char → List Char → Int
  | c1 :: s1, c2 :: s2 =>
    if tolower c1 = tolower c2 ∧ tolower c1 ≠ NUL then strcasecmp s1 s2
    else ((tolower c1).toNat : Int) - ((tolower c2).toNat : Int)
  | s1, s2 =>
    ((tolower (s1.headD NUL)).toNat : Int) - ((tolower (s2.headD NUL)).toNat : Int)

/-- A well-formed unsigned decimal numeral: at least one character, all digits. -/
def is_numeral (cp : List Char) : Prop :=
  cp ≠ [] ∧ ∀ c ∈ cp, c.isDigit = true

instance (cp : List Char) : Decidable (is_numeral cp) := by
  unfold is_numeral; exact inferInstance

/-- Value of a digit character. -/
def digit_val (c : Char) : Nat := c.toNat - '0'.toNat

/-- Modelled from the spec: `simple_strtoul` (kernel library helper, not in the
translated file). "parse child_name as an unsigned integer (malformed/non-numeric
name ⇒ value 0)": a well-formed numeral has its positional value in the given
base, every other name has value 0. -/
def simple_strtoul (cp : List Char) (base : Nat) : Nat :=
  if is_numeral cp then cp.foldl (fun acc c => acc * base + digit_val c) 0 else 0

/-! ## Derivation (lines 23-110) -/

/-- Copy derived state from the parent inode (`inherit_derived_state`). -/
def inherit_derived_state (pi ci : sdcardfs_inode_data) : sdcardfs_inode_data :=
  { ci with
    perm := PERM_INHERIT
    userid := pi.userid
    d_uid := pi.d_uid
    under_android := pi.under_android }

/-- Helper for derived state (`setup_derived_state`). -/
def setup_derived_state (info : sdcardfs_inode_data) (perm : perm_t)
    (userid uid : Nat) (under_android : Bool) : sdcardfs_inode_data :=
  { info with perm := perm, userid := userid, d_uid := uid, under_android := under_android }

/-- The single-level derivation `get_derived_permission_new(parent, dentry, newdentry)`:
`parent_info` is the parent's state, `info` the child's state before the call and
`name` is `newdentry->d_name.name`. The result is the child's state after the call.
The `switch` has no arm for the two package classes: the child keeps what
`inherit_derived_state` gave it. In the `PERM_PRE_ROOT` arm the `unsigned long` of
`simple_strtoul` is stored into the `userid_t` field: the low `userid_bits` bits
are kept (`unsigned long` is at least as wide). -/
def get_derived_permission_new (env : Collab) (sbi : sdcardfs_sb_info)
    (parent_info info : sdcardfs_inode_data) (name : List Char) : sdcardfs_inode_data :=
  let info := inherit_derived_state parent_info info
  match parent_info.perm with
  | PERM_INHERIT => info
  | PERM_PRE_ROOT =>
    { info with perm := PERM_ROOT, userid := simple_strtoul name 10 % 2 ^ env.userid_bits }
  | PERM_ROOT =>
    if strcasecmp name "Android".data = 0 then
      { info with perm := PERM_ANDROID, under_android := true }
    else info
  | PERM_ANDROID =>
    if strcasecmp name "data".data = 0 then
      { info with perm := PERM_ANDROID_DATA }
    else if strcasecmp name "obb".data = 0 then
      { info with perm := PERM_ANDROID_OBB }
    else if strcasecmp name "media".data = 0 then
      { info with perm := PERM_ANDROID_MEDIA }
    else info
  | PERM_ANDROID_DATA | PERM_ANDROID_OBB | PERM_ANDROID_MEDIA =>
    let appid := env.get_appid sbi.pkgl_id name
    if appid ≠ 0 then
      { info with d_uid := env.multiuser_get_uid parent_info.userid appid }
    else info
  | PERM_ANDROID_PACKAGE | PERM_ANDROID_PACKAGE_CACHE => info

/-- The derivation `get_derived_permission(parent, dentry)` as the source has it.
Line 109 calls `get_derived_permission_new(parent, dentry, &dentry->d_name)`: the
third argument is a `struct qstr *`, while line 48 declares it
`struct dentry *newdentry` and the arms read `newdentry->d_name.name`. So the name
the arms work with is not the dentry's `d_name.name`: it is read through the
pointer that lies `offsetof(struct dentry, d_name)` bytes past the dentry's
`d_name`. What is found there depends on the memory around the dentry and is the
argument `stray_name`: the string that pointer leads to, `none` when following it
faults. The dentry's own name is not read at all. The arms for `PERM_INHERIT` and
the package classes read no name, so they cannot fault. The result is `none` when
the call faults. -/
def get_derived_permission (env : Collab) (sbi : sdcardfs_sb_info)
    (parent_info info : sdcardfs_inode_data) (stray_name : Option (List Char)) :
    Option sdcardfs_inode_data :=
  match parent_info.perm with
  | PERM_INHERIT | PERM_ANDROID_PACKAGE | PERM_ANDROID_PACKAGE_CACHE =>
    some (get_derived_permission_new env sbi parent_info info [])
  | _ =>
    match stray_name with
    | none => none
    | some name => some (get_derived_permission_new env sbi parent_info info name)

/-- Derivation along a path: each step derives the next node (given by its state
before the call and its name) from the node derived just before it. -/
def derive_path (env : Collab) (sbi : sdcardfs_sb_info) :
    sdcardfs_inode_data → List (sdcardfs_inode_data × List Char) → sdcardfs_inode_data
  | parent, [] => parent
  | parent, (info, name) :: rest =>
    derive_path env sbi (get_derived_permission_new env sbi parent info name) rest

/-! ## Ownership fix-up (lines 112-219) -/

/-- Modelled from the spec: `strrchr` (kernel string helper, not in the translated
file). The group of a file is looked up for "the extension", the text after the
last `.` of the name: `strrchr name c` is the part of `name` that starts at the
last occurrence of `c`, and `none` (the NULL pointer) when `c` does not occur. -/
def strrchr : List Char → Char → Option (List Char)
  | [], _ => none
  | x :: xs, c =>
    match strrchr xs c with
    | some r => some r
    | none => if x = c then some (x :: xs) else none

/-- The group a file name maps to (`get_type`): `ext[0]` is the character `ext`
points at, the NUL when the string is empty, and `&ext[1]` the rest. -/
def get_type (env : Collab) (name : List Char) : Nat :=
  match strrchr name '.' with
  | some ext =>
    if ext.headD NUL ≠ NUL then
      let ext := ext.tail
      let id := env.get_ext_gid ext
      if id ≠ 0 then id else env.AID_MEDIA_RW
    else env.AID_MEDIA_RW
  | none => env.AID_MEDIA_RW

/-- Modelled from the spec: `top_data_get` (helper of sdcardfs.h, not in the
translated file): for a node whose class is `Inherit` the class is resolved "by
looking up the nearest non-Inherit ancestor's class"; the data of that ancestor
is the `top` the inode info carries. -/
def top_data_get (info : sdcardfs_inode_info) : sdcardfs_inode_data := info.top

/-- The class the fix-up works with (lines 142-153 of `fixup_lower_ownership`). -/
def fixup_perm (info : sdcardfs_inode_info) : perm_t :=
  let info_d := info.data
  let perm := info_d.perm
  if info_d.under_obb then PERM_ANDROID_OBB
  else if info_d.under_cache then PERM_ANDROID_PACKAGE_CACHE
  else if perm = PERM_INHERIT then (top_data_get info).perm
  else perm

/-- The uid the fix-up aims at (first `switch` of `fixup_lower_ownership`,
lines 155-170); it starts as `sbi->options.fs_low_uid`. -/
def fixup_uid (env : Collab) (sbi : sdcardfs_sb_info) (info_d : sdcardfs_inode_data)
    (perm : perm_t) : Nat :=
  let uid := sbi.options.fs_low_uid
  match perm with
  | PERM_ROOT | PERM_ANDROID | PERM_ANDROID_DATA | PERM_ANDROID_MEDIA
  | PERM_ANDROID_PACKAGE | PERM_ANDROID_PACKAGE_CACHE =>
    env.multiuser_get_uid info_d.userid uid
  | PERM_ANDROID_OBB => env.AID_MEDIA_OBB
  | PERM_PRE_ROOT => uid
  | PERM_INHERIT => uid

/-- The gid the fix-up aims at (second `switch` of `fixup_lower_ownership`,
lines 171-199); it starts as `sbi->options.fs_low_gid`. `i_mode` is the mode of
the sdcardfs inode, `dentry->d_inode->i_mode`. -/
def fixup_gid (env : Collab) (sbi : sdcardfs_sb_info) (info_d : sdcardfs_inode_data)
    (perm : perm_t) (i_mode : Nat) (name : List Char) : Nat :=
  let gid := sbi.options.fs_low_gid
  match perm with
  | PERM_ROOT | PERM_ANDROID | PERM_ANDROID_DATA | PERM_ANDROID_MEDIA =>
    if env.S_ISDIR i_mode then env.multiuser_get_uid info_d.userid env.AID_MEDIA_RW
    else env.multiuser_get_uid info_d.userid (get_type env name)
  | PERM_ANDROID_OBB => env.AID_MEDIA_OBB
  | PERM_ANDROID_PACKAGE =>
    if env.uid_is_app info_d.d_uid then env.multiuser_get_ext_gid info_d.d_uid
    else env.multiuser_get_uid info_d.userid env.AID_MEDIA_RW
  | PERM_ANDROID_PACKAGE_CACHE =>
    if env.uid_is_app info_d.d_uid then env.multiuser_get_ext_cache_gid info_d.d_uid
    else env.multiuser_get_uid info_d.userid env.AID_MEDIA_RW
  | PERM_PRE_ROOT => gid
  | PERM_INHERIT => gid

/-- The attribute flags of `struct iattr`. -/
inductive attr_flag where
  | ATTR_MODE
  | ATTR_UID
  | ATTR_GID
  | ATTR_SIZE
  | ATTR_ATIME
  | ATTR_MTIME
  | ATTR_CTIME
  | ATTR_FORCE
  | ATTR_KILL_SUID
  | ATTR_KILL_SGID
  | ATTR_KILL_PRIV
  deriving DecidableEq

open attr_flag

/-- The attribute-change request (`struct iattr`): `ia_valid` is the set of flags
or-ed together; `make_kuid`/`make_kgid` of the current namespace are the identity. -/
structure iattr where
  ia_valid : Finset attr_flag
  ia_uid : Nat
  ia_gid : Nat
  deriving DecidableEq

/-- The inode of the lower file system (`path.dentry->d_inode`). -/
structure lower_inode where
  i_uid : Nat
  i_gid : Nat
  i_mode : Nat
  deriving DecidableEq

/-- What the fix-up asks of the kernel, in order. -/
inductive event where
  | chown_check (uid gid : Nat)
  | change (attrs : iattr)
  deriving DecidableEq

/-- A lower path (`struct path`). -/
structure path where
  mnt : Nat
  dentry : Nat
  deriving DecidableEq

/-- The kernel services the file calls: each returns its error code first. -/
structure Kernel where
  security_path_chown : lower_inode → Nat → Nat → Int
  notify_change2 : lower_inode → iattr → Int × lower_inode
  kern_path : List Char → Nat → Int × path
  LOOKUP_FOLLOW : Nat
  LOOKUP_DIRECTORY : Nat

/-- Everything `fixup_lower_ownership` reads or writes: the sdcardfs inode (its
info and its mode), the lower inode and the requests made so far. -/
structure fixup_state where
  info : sdcardfs_inode_info
  i_mode : Nat
  lower : lower_inode
  log : List event
  deriving DecidableEq

/-- The ownership fix-up `fixup_lower_ownership(dentry, name)`. The function
returns nothing: an error of the check or of the change is only logged. -/
def fixup_lower_ownership (env : Collab) (k : Kernel) (sbi : sdcardfs_sb_info)
    (name : List Char) (w : fixup_state) : fixup_state :=
  if sbi.options.gid_derivation = false then w
  else
    let info_d := w.info.data
    let perm := fixup_perm w.info
    let uid := fixup_uid env sbi info_d perm
    let gid := fixup_gid env sbi info_d perm w.i_mode name
    let inode := w.lower
    if inode.i_gid ≠ gid ∨ inode.i_uid ≠ uid then
      let valid : Finset attr_flag := {ATTR_GID, ATTR_UID, ATTR_FORCE}
      let valid := if env.S_ISDIR inode.i_mode = false then
          valid ∪ {ATTR_KILL_SUID, ATTR_KILL_SGID, ATTR_KILL_PRIV}
        else valid
      let newattrs : iattr := { ia_valid := valid, ia_uid := uid, ia_gid := gid }
      let error := k.security_path_chown inode newattrs.ia_uid newattrs.ia_gid
      let log := w.log ++ [event.chown_check newattrs.ia_uid newattrs.ia_gid]
      if error = 0 then
        let r := k.notify_change2 inode newattrs
        { w with lower := r.2, log := log ++ [event.change newattrs] }
      else { w with log := log }
    else w

/-! ## The obb path (lines 280-391) -/

/-- Whether the dentry is an obb directory to graft (`need_graft_path`);
`parent_info` is the state of the dentry's parent, `name` the dentry's name. -/
def need_graft_path (sbi : sdcardfs_sb_info) (parent_info : sdcardfs_inode_data)
    (name : List Char) : Int :=
  if parent_info.perm = PERM_ANDROID ∧ strcasecmp name "obb".data = 0 then
    if ¬ (sbi.options.multiuser = false ∧ parent_info.userid = 0) then 1 else 0
  else 0

/-- Whether the dentry is the base obb path (`is_base_obbpath`). -/
def is_base_obbpath (sbi : sdcardfs_sb_info) (parent_info : sdcardfs_inode_data)
    (name : List Char) : Int :=
  if sbi.options.multiuser = true then
    if parent_info.perm = PERM_PRE_ROOT ∧ strcasecmp name "obb".data = 0 then 1 else 0
  else if parent_info.perm = PERM_ANDROID ∧ strcasecmp name "obb".data = 0 then 1
  else 0

/-- The paths kept with a dentry (`struct sdcardfs_dentry_info`): a path whose
dentry pointer is NULL is `none`. -/
structure sdcardfs_dentry_info where
  lower_path : Option path
  orig_path : Option path
  deriving DecidableEq

/-- Modelled from the spec: `sdcardfs_set_orig_path` (inline helper of sdcardfs.h,
not in the translated file): it "records real_path as the node's original_path";
the comment above `setup_obb_dentry` says the same ("the lower_path will be stored
to the dentry's orig_path"). -/
def sdcardfs_set_orig_path (di : sdcardfs_dentry_info) (lower_path : path) :
    sdcardfs_dentry_info :=
  { di with orig_path := some lower_path }

/-- The obb set-up `setup_obb_dentry(dentry, lower_path)`: the result is the
returned error code, the dentry info after the call and the caller's
`lower_path` variable after the call. -/
def setup_obb_dentry (k : Kernel) (sbi : sdcardfs_sb_info) (di : sdcardfs_dentry_info)
    (lower_path : path) : Int × sdcardfs_dentry_info × path :=
  let di := sdcardfs_set_orig_path di lower_path
  let r := k.kern_path sbi.obbpath_s (k.LOOKUP_FOLLOW ||| k.LOOKUP_DIRECTORY)
  let err := r.1
  let obbpath := r.2
  if err = 0 then (err, di, obbpath)
  else (err, di, lower_path)

/-- The services `is_obbpath_invalid` calls: `d_path` gives the text of a path,
`d_unhashed` tells whether a dentry has been unlinked from the dentry cache and
`kmalloc_ok` whether the allocation of the path buffer succeeds. -/
structure Dcache where
  d_path : path → List Char
  d_unhashed : Nat → Bool
  kmalloc_ok : Bool

/-- Whether the obb binding of a dentry is invalid (`is_obbpath_invalid`). -/
def is_obbpath_invalid (dc : Dcache) (sbi : sdcardfs_sb_info)
    (di : sdcardfs_dentry_info) : Int :=
  match di.orig_path with
  | none => 0
  | some _ =>
    match di.lower_path with
    | none => 1
    | some lower_path =>
      if dc.kmalloc_ok = false then 1
      else
        let obbpath_s := dc.d_path lower_path
        if dc.d_unhashed lower_path.dentry = true
            ∨ strcasecmp sbi.obbpath_s obbpath_s ≠ 0 then 1
        else 0

/-! ## Refresh of one node and of a subtree (lines 240-278) -/

/-- The attributes of the sdcardfs inode that the overlay reports. -/
structure inode_attrs where
  i_uid : Nat
  i_gid : Nat
  i_mode : Nat
  deriving DecidableEq

/-- The sdcardfs inode: its derived state and its reported attributes. -/
structure sdcardfs_inode where
  info : sdcardfs_inode_data
  attrs : inode_attrs
  deriving DecidableEq

/-- Modelled from the spec: `fix_derived_permission` (not in the translated file),
the fix-up run after a derivation. It takes the derived state as computed and
rewrites the attributes the overlay reports; the derived state is left as it is.
How the attributes are computed stays the parameter `fix`. -/
def fix_derived_permission (fix : sdcardfs_inode_data → inode_attrs → inode_attrs)
    (inode : sdcardfs_inode) : sdcardfs_inode :=
  { inode with attrs := fix inode.info inode.attrs }

/-- A dentry with the subtree below it: a negative dentry (`d_inode == NULL`) has no
children, a positive one has its inode and its `d_subdirs`. `stray_name` is what
`get_derived_permission` finds in place of the name of this dentry (see there). -/
inductive dentry where
  | negative (d_name : List Char)
  | positive (d_name : List Char) (stray_name : Option (List Char))
      (d_inode : sdcardfs_inode) (d_subdirs : List dentry)

mutual
/-- The loop of `get_derive_permissions_recursive` over `parent->d_subdirs`:
`parent_info` is the state of the parent, `pre` the position of the parent below
the root and `i` the index of the first entry of the list. The result is the
list after the walk and the positions of the entries visited, in order; it is
`none` when a derivation on the way faults. -/
def derive_subdirs (env : Collab) (sbi : sdcardfs_sb_info)
    (fix : sdcardfs_inode_data → inode_attrs → inode_attrs)
    (parent_info : sdcardfs_inode_data) (pre : List Nat) (i : Nat) :
    List dentry → Option (List dentry × List (List Nat))
  | [] => some ([], [])
  | d :: rest =>
    match derive_entry env sbi fix parent_info pre i d with
    | none => none
    | some r1 =>
      match derive_subdirs env sbi fix parent_info pre (i + 1) rest with
      | none => none
      | some r2 => some (r1.1 :: r2.1, r1.2 ++ r2.2)
/-- The body of the loop: an entry without inode is skipped; for an entry with an
inode the state is derived from the parent by `get_derived_permission`, the
attributes are fixed and the walk goes on below the entry, with the entry as the
parent. -/
def derive_entry (env : Collab) (sbi : sdcardfs_sb_info)
    (fix : sdcardfs_inode_data → inode_attrs → inode_attrs)
    (parent_info : sdcardfs_inode_data) (pre : List Nat) (i : Nat) :
    dentry → Option (dentry × List (List Nat))
  | dentry.negative name => some (dentry.negative name, [])
  | dentry.positive name stray_name inode subdirs =>
    match get_derived_permission env sbi parent_info inode.info stray_name with
    | none => none
    | some info1 =>
      match derive_subdirs env sbi fix
          (fix_derived_permission fix { inode with info := info1 }).info
          (pre ++ [i]) 0 subdirs with
      | none => none
      | some r =>
        some (dentry.positive name stray_name
          (fix_derived_permission fix { inode with info := info1 }) r.1, (pre ++ [i]) :: r.2)
end

/-- The recursive refresh `get_derive_permissions_recursive(parent)`: the tree
after the walk and the positions (child indices from `parent` down) of the
dentries visited, in the order of the visits; `none` when the walk faults. -/
def get_derive_permissions_recursive (env : Collab) (sbi : sdcardfs_sb_info)
    (fix : sdcardfs_inode_data → inode_attrs → inode_attrs) :
    dentry → Option (dentry × List (List Nat))
  | dentry.negative name => some (dentry.negative name, [])
  | dentry.positive name stray_name inode subdirs =>
    match derive_subdirs env sbi fix inode.info [] 0 subdirs with
    | none => none
    | some r => some (dentry.positive name stray_name inode r.1, r.2)

/-- The refresh of one node, `update_derived_permission_lock(dentry)`: `d_inode` is
`none` for an invalid dentry, `is_root` is `IS_ROOT(dentry)`, `parent_info` the
state of `dget_parent(dentry)` and `stray_name` what `get_derived_permission`
finds in place of the dentry's name. The result is the inode after the call,
`none` when the call faults. -/
def update_derived_permission_lock (env : Collab) (sbi : sdcardfs_sb_info)
    (fix : sdcardfs_inode_data → inode_attrs → inode_attrs)
    (is_root : Bool) (parent_info : sdcardfs_inode_data) (stray_name : Option (List Char))
    (d_inode : Option sdcardfs_inode) : Option (Option sdcardfs_inode) :=
  match d_inode with
  | none => some none
  | some inode =>
    if is_root = true then some (some (fix_derived_permission fix inode))
    else
      match get_derived_permission env sbi parent_info inode.info stray_name with
      | none => none
      | some info1 => some (some (fix_derived_permission fix { inode with info := info1 }))

/-! ## Vocabulary of the statements -/

/-- The nodes derived along a path, in order: each from the one before it. -/
def derive_chain (env : Collab) (sbi : sdcardfs_sb_info) :
    sdcardfs_inode_data → List (sdcardfs_inode_data × List Char) → List sdcardfs_inode_data
  | _, [] => []
  | parent, (info, name) :: rest =>
    get_derived_permission_new env sbi parent info name
      :: derive_chain env sbi (get_derived_permission_new env sbi parent info name) rest

/-- Depth of a class in the hierarchy: `PreRoot < Root < Android <` the three leaf
classes. `Inherit` has no depth of its own (it is resolved first). -/
def class_depth : perm_t → Nat
  | PERM_INHERIT => 0
  | PERM_PRE_ROOT => 0
  | PERM_ROOT => 1
  | PERM_ANDROID => 2
  | PERM_ANDROID_DATA => 3
  | PERM_ANDROID_OBB => 3
  | PERM_ANDROID_MEDIA => 3
  | PERM_ANDROID_PACKAGE => 4
  | PERM_ANDROID_PACKAGE_CACHE => 4

/-- The classes of a chain with every `Inherit` resolved to the class of the nearest
ancestor that is not `Inherit`; `anc` is that class for the node before the chain. -/
def resolve_chain : perm_t → List perm_t → List perm_t
  | _, [] => []
  | anc, p :: rest =>
    (if p = PERM_INHERIT then anc else p)
      :: resolve_chain (if p = PERM_INHERIT then anc else p) rest

/-- Whether `anc` can be the resolved class of a node of class `p` on a chain that
starts at `PreRoot` or `Root`: `p` itself when `p` is a class of the hierarchy, and
for `p = Inherit` a class of the hierarchy below `PreRoot`. -/
def resolves_to (p anc : perm_t) : Bool :=
  match p with
  | PERM_INHERIT =>
    decide (anc = PERM_ROOT ∨ anc = PERM_ANDROID ∨ anc = PERM_ANDROID_DATA
      ∨ anc = PERM_ANDROID_OBB ∨ anc = PERM_ANDROID_MEDIA)
  | PERM_ANDROID_PACKAGE => false
  | PERM_ANDROID_PACKAGE_CACHE => false
  | _ => decide (anc = p)

/-- The class of the `j`-th child of a dentry after a walk: `none` when the walk
faulted or there is no such child with an inode. -/
def child_class (r : Option (dentry × List (List Nat))) (j : Nat) : Option perm_t :=
  match r with
  | some (dentry.positive _ _ _ subdirs, _) =>
    match subdirs[j]? with
    | some (dentry.positive _ _ inode _) => some inode.info.perm
    | _ => none
  | _ => none

/-- The class of the inode after a refresh: `none` when the refresh faulted or
there is no inode. -/
def refreshed_class (r : Option (Option sdcardfs_inode)) : Option perm_t :=
  match r with
  | some (some inode) => some inode.info.perm
  | _ => none

/-! ## Sample values used by the concrete evaluations -/

/-- A sample environment: Android's offset encoding of multiuser ids, the usual
`AID_*` numbers, one installed package, the `mp3` extension and a `userid_t` of
32 bits. -/
def sample_env : Collab where
  multiuser_get_uid := fun userid appid => userid * 100000 + appid % 100000
  get_appid := fun _ name => if name = "com.example.app".data then 10057 else 0
  get_ext_gid := fun ext => if ext = "mp3".data then 1055 else 0
  uid_is_app := fun uid => decide (10000 ≤ uid % 100000 ∧ uid % 100000 ≤ 19999)
  multiuser_get_ext_gid := fun uid => uid - 10000 + 30000
  multiuser_get_ext_cache_gid := fun uid => uid - 10000 + 40000
  AID_MEDIA_RW := 1023
  AID_MEDIA_OBB := 1059
  S_ISDIR := fun mode => decide (mode / 4096 % 16 = 4)
  userid_bits := 32

/-- A sample superblock: multiuser mount with gid derivation. -/
def sample_sbi : sdcardfs_sb_info where
  options := { fs_low_uid := 1023, fs_low_gid := 1023, multiuser := true, gid_derivation := true }
  obbpath_s := "/data/media/obb".data
  pkgl_id := 0

/-- The state of the mount root under the legacy layout. -/
def pre_root : sdcardfs_inode_data :=
  { perm := PERM_PRE_ROOT, userid := 0, d_uid := 0,
    under_android := false, under_obb := false, under_cache := false }

/-- The state of an inode nothing has been derived for yet. -/
def fresh : sdcardfs_inode_data :=
  { perm := PERM_INHERIT, userid := 0, d_uid := 0,
    under_android := false, under_obb := false, under_cache := false }

/-- A sample kernel: the obb path does not resolve (`-ENOENT`), the policy allows
every ownership change and the attribute change writes uid and gid. -/
def sample_kernel : Kernel where
  security_path_chown := fun _ _ _ => 0
  notify_change2 := fun inode attrs =>
    (0, { inode with i_uid := attrs.ia_uid, i_gid := attrs.ia_gid })
  kern_path := fun _ _ => (-2, { mnt := 0, dentry := 0 })
  LOOKUP_FOLLOW := 1
  LOOKUP_DIRECTORY := 2

/-- A sample superblock with gid derivation switched off. -/
def sample_sbi_no_gid : sdcardfs_sb_info :=
  { sample_sbi with options := { sample_sbi.options with gid_derivation := false } }

/-- A node below `Android/media` of user 10: class `Inherit`, resolved through an
`AndroidMedia` top. -/
def sample_media_child : sdcardfs_inode_info where
  data := { fresh with userid := 10, under_android := true }
  top := { fresh with perm := PERM_ANDROID_MEDIA, userid := 10, under_android := true }

/-- A dentry nothing has been recorded for. -/
def unbound : sdcardfs_dentry_info := { lower_path := none, orig_path := none }

/-- A sample kernel whose security policy rejects every ownership change
(`-EACCES`). -/
def sample_kernel_deny : Kernel :=
  { sample_kernel with security_path_chown := fun _ _ _ => -13 }

/-- A regular file `song.mp3` below `Android/media` of user 10 whose lower inode
is owned by root: the state the fix-up starts from. -/
def sample_fixup_state : fixup_state where
  info := sample_media_child
  i_mode := 33188
  lower := { i_uid := 0, i_gid := 0, i_mode := 33188 }
  log := []

/-- A sample dentry cache: the lower path of the obb directory reads
`/DATA/MEDIA/OBB`, it is still hashed and the path buffer can be allocated. -/
def sample_dcache : Dcache where
  d_path := fun _ => "/DATA/MEDIA/OBB".data
  d_unhashed := fun _ => false
  kmalloc_ok := true

/-- A dentry with both paths recorded. -/
def bound : sdcardfs_dentry_info :=
  { lower_path := some { mnt := 1, dentry := 9 }, orig_path := some { mnt := 1, dentry := 7 } }

/-- An inode with the given derived state and no attributes yet. -/
def inode_of (info : sdcardfs_inode_data) : sdcardfs_inode :=
  { info := info, attrs := { i_uid := 0, i_gid := 0, i_mode := 0 } }

/-- A sample way to fix the attributes: the uid is the derived `d_uid`. -/
def sample_fix (info : sdcardfs_inode_data) (attrs : inode_attrs) : inode_attrs :=
  { attrs with i_uid := info.d_uid }

/-- The state of the directory of user 0: class `Root`. -/
def user_root : sdcardfs_inode_data := { fresh with perm := PERM_ROOT }

/-- The directory of user 0 with one child: a dentry with the given name, a fresh
inode and the given string in place of its name. -/
def user_dir_with (name : List Char) (stray_name : Option (List Char)) : dentry :=
  dentry.positive "0".data none (inode_of user_root)
    [dentry.positive name stray_name (inode_of fresh) []]

/-! ## Lemmas on the string helpers -/

theorem toNat_ofNat_small (n : Nat) (h : n < 55296) : (Char.ofNat n).toNat = n := by
  have hv : n.isValidChar := Or.inl h
  simp only [Char.ofNat, dif_pos hv, Char.ofNatAux, Char.toNat]
  simp [UInt32.toNat]

theorem char_le_iff (a b : Char) : a ≤ b ↔ a.toNat ≤ b.toNat := by
  rw [Char.le_def]
  exact Iff.rfl

theorem toNat_inj (a b : Char) (h : a.toNat = b.toNat) : a = b := by
  have := congrArg Char.ofNat h
  simpa using this

theorem tolower_toNat (c : Char) :
    (tolower c).toNat = if 65 ≤ c.toNat ∧ c.toNat ≤ 90 then c.toNat + 32 else c.toNat := by
  have hA : 'A'.toNat = 65 := by decide
  have hZ : 'Z'.toNat = 90 := by decide
  have hiff : ('A' ≤ c ∧ c ≤ 'Z') ↔ (65 ≤ c.toNat ∧ c.toNat ≤ 90) := by
    rw [char_le_iff, char_le_iff, hA, hZ]
  unfold tolower
  by_cases h : 65 ≤ c.toNat ∧ c.toNat ≤ 90
  · rw [if_pos (hiff.2 h), if_pos h, toNat_ofNat_small _ (by omega)]
  · rw [if_neg (fun h2 => h (hiff.1 h2)), if_neg h]

theorem tolower_eq_NUL (c : Char) : tolower c = NUL ↔ c = NUL := by
  constructor
  · intro h
    have h1 := congrArg Char.toNat h
    rw [tolower_toNat] at h1
    have h0 : NUL.toNat = 0 := by decide
    rw [h0] at h1
    apply toNat_inj
    rw [h0]
    split at h1 <;> omega
  · rintro rfl
    decide

/-- On names without a NUL, `strcasecmp` returns 0 exactly when the two names
agree after lowering every ASCII letter. -/
theorem strcasecmp_eq_zero_iff (a b : List Char) (ha : NUL ∉ a) (hb : NUL ∉ b) :
    strcasecmp a b = 0 ↔ a.map tolower = b.map tolower := by
  induction a generalizing b with
  | nil =>
    cases b with
    | nil => simp [strcasecmp]
    | cons c2 s2 =>
      have hc2 : c2 ≠ NUL := fun h => hb (by simp [h])
      have : (tolower c2).toNat ≠ 0 := by
        intro h0
        apply hc2
        rw [← tolower_eq_NUL]
        apply toNat_inj
        rw [h0]; decide
      have h0 : (tolower NUL).toNat = 0 := by decide
      simp [strcasecmp, h0]
      omega
  | cons c1 s1 ih =>
    have hc1 : c1 ≠ NUL := fun h => ha (by simp [h])
    have hs1 : NUL ∉ s1 := fun h => ha (by simp [h])
    have hl1 : tolower c1 ≠ NUL := fun h => hc1 ((tolower_eq_NUL c1).1 h)
    cases b with
    | nil =>
      have : (tolower c1).toNat ≠ 0 := by
        intro h0
        apply hl1
        apply toNat_inj
        rw [h0]; decide
      have h0 : (tolower NUL).toNat = 0 := by decide
      simp [strcasecmp, h0]
      omega
    | cons c2 s2 =>
      have hs2 : NUL ∉ s2 := fun h => hb (by simp [h])
      by_cases hc : tolower c1 = tolower c2
      · have hl2 : tolower c2 ≠ NUL := hc ▸ hl1
        simp only [strcasecmp, List.map_cons, hc, true_and, hl2, ne_eq, not_false_eq_true,
          if_true, ih s2 hs1 hs2, List.cons.injEq]
      · have : (tolower c1).toNat ≠ (tolower c2).toNat := fun h => hc (toNat_inj _ _ h)
        simp [strcasecmp, hc]
        omega

/-- The comparison against the fixed name `obb`. -/
theorem strcasecmp_obb_iff (name : List Char) (hname : NUL ∉ name) :
    strcasecmp name "obb".data = 0 ↔ name.map tolower = "obb".data := by
  rw [strcasecmp_eq_zero_iff name "obb".data hname (by decide)]
  have : "obb".data.map tolower = "obb".data := by decide
  rw [this]

theorem strrchr_of_not_mem (name : List Char) (c : Char) (h : c ∉ name) :
    strrchr name c = none := by
  induction name with
  | nil => rfl
  | cons x xs ih =>
    have hx : x ≠ c := fun e => h (by simp [e])
    have hxs : c ∉ xs := fun e => h (by simp [e])
    simp [strrchr, ih hxs, hx]

theorem strrchr_last (pre ext : List Char) (c : Char) (h : c ∉ ext) :
    strrchr (pre ++ c :: ext) c = some (c :: ext) := by
  induction pre with
  | nil => simp [strrchr, strrchr_of_not_mem ext c h]
  | cons x xs ih => simp [strrchr, ih]

/-- The group of a name without a dot is `AID_MEDIA_RW`. -/
theorem get_type_no_dot (env : Collab) (name : List Char) (h : '.' ∉ name) :
    get_type env name = env.AID_MEDIA_RW := by
  simp [get_type, strrchr_of_not_mem name '.' h]

/-- The group of a name with a dot is the group of the text after its last dot,
`AID_MEDIA_RW` when that group is 0. -/
theorem get_type_ext (env : Collab) (pre ext : List Char) (h : '.' ∉ ext) :
    get_type env (pre ++ '.' :: ext)
      = if env.get_ext_gid ext ≠ 0 then env.get_ext_gid ext else env.AID_MEDIA_RW := by
  have hdot : ('.' : Char) ≠ NUL := by decide
  simp [get_type, strrchr_last pre ext '.' h, hdot]


theorem simple_strtoul_of_not_numeral (cp : List Char) (base : Nat)
    (h : ¬ is_numeral cp) : simple_strtoul cp base = 0 := by
  simp [simple_strtoul, h]

theorem foldl_digits_eq_ofDigits (cp : List Char) (acc : Nat) :
    cp.foldl (fun acc c => acc * 10 + digit_val c) acc
      = acc * 10 ^ cp.length + Nat.ofDigits 10 (cp.reverse.map digit_val) := by
  induction cp generalizing acc with
  | nil => simp
  | cons c cs ih =>
    simp only [List.foldl_cons, List.reverse_cons, List.map_append, List.map_cons,
      List.map_nil, List.length_cons]
    rw [ih, Nat.ofDigits_append, Nat.ofDigits_singleton]
    simp only [List.length_map, List.length_reverse]
    ring

theorem simple_strtoul_numeral (cp : List Char) (h : is_numeral cp) :
    simple_strtoul cp 10 = Nat.ofDigits 10 (cp.reverse.map digit_val) := by
  simp [simple_strtoul, h, foldl_digits_eq_ofDigits]

/-! ## Derivation along `u/Android/data/pkg` -/

/-- C1 (as the claim states it, refuted): along `10/Android/data/com.example.app`
and `10/Android/Obb/com.example.app` from a `PreRoot` parent the fourth derived
node, the package directory, has class `Inherit`: neither `AndroidData` nor
`AndroidObb`. -/
theorem package_dir_class_is_inherit :
    (derive_path sample_env sample_sbi pre_root
        [(fresh, "10".data), (fresh, "Android".data), (fresh, "data".data),
         (fresh, "com.example.app".data)]).perm = PERM_INHERIT
    ∧ (derive_path sample_env sample_sbi pre_root
        [(fresh, "10".data), (fresh, "Android".data), (fresh, "data".data),
         (fresh, "com.example.app".data)]).perm ≠ PERM_ANDROID_DATA
    ∧ (derive_path sample_env sample_sbi pre_root
        [(fresh, "10".data), (fresh, "Android".data), (fresh, "Obb".data),
         (fresh, "com.example.app".data)]).perm ≠ PERM_ANDROID_OBB := by
  decide

/-- C1 (amended): for every numeric user name `u` and every package name `pkg`,
deriving from a `PreRoot` parent along `u`, `Android`, `data` gives the third node
class `AndroidData` and along `u`, `Android`, `Obb` class `AndroidObb`; the fourth
node `pkg` derived below either has class `Inherit`; all of them have `userid`
equal to the decimal value of `u` reduced modulo `2 ^ userid_bits`, the range of
`userid_t`, hence equal to the decimal value itself when that fits `userid_t`. -/
theorem derive_user_android_leaf (env : Collab) (sbi : sdcardfs_sb_info)
    (root c1 c2 c3 c4 : sdcardfs_inode_data) (u pkg : List Char)
    (hroot : root.perm = PERM_PRE_ROOT) (hu : is_numeral u) :
    (derive_path env sbi root
        [(c1, u), (c2, "Android".data), (c3, "data".data)]).perm = PERM_ANDROID_DATA
    ∧ (derive_path env sbi root
        [(c1, u), (c2, "Android".data), (c3, "data".data)]).userid
          = Nat.ofDigits 10 (u.reverse.map digit_val) % 2 ^ env.userid_bits
    ∧ (derive_path env sbi root
        [(c1, u), (c2, "Android".data), (c3, "Obb".data)]).perm = PERM_ANDROID_OBB
    ∧ (derive_path env sbi root
        [(c1, u), (c2, "Android".data), (c3, "Obb".data)]).userid
          = Nat.ofDigits 10 (u.reverse.map digit_val) % 2 ^ env.userid_bits
    ∧ (derive_path env sbi root
        [(c1, u), (c2, "Android".data), (c3, "data".data), (c4, pkg)]).perm = PERM_INHERIT
    ∧ (derive_path env sbi root
        [(c1, u), (c2, "Android".data), (c3, "data".data), (c4, pkg)]).userid
          = Nat.ofDigits 10 (u.reverse.map digit_val) % 2 ^ env.userid_bits
    ∧ (derive_path env sbi root
        [(c1, u), (c2, "Android".data), (c3, "Obb".data), (c4, pkg)]).perm = PERM_INHERIT
    ∧ (derive_path env sbi root
        [(c1, u), (c2, "Android".data), (c3, "Obb".data), (c4, pkg)]).userid
          = Nat.ofDigits 10 (u.reverse.map digit_val) % 2 ^ env.userid_bits
    ∧ (Nat.ofDigits 10 (u.reverse.map digit_val) < 2 ^ env.userid_bits →
        (derive_path env sbi root
            [(c1, u), (c2, "Android".data), (c3, "data".data)]).userid
          = Nat.ofDigits 10 (u.reverse.map digit_val)
        ∧ (derive_path env sbi root
            [(c1, u), (c2, "Android".data), (c3, "Obb".data)]).userid
          = Nat.ofDigits 10 (u.reverse.map digit_val)
        ∧ (derive_path env sbi root
            [(c1, u), (c2, "Android".data), (c3, "data".data), (c4, pkg)]).userid
          = Nat.ofDigits 10 (u.reverse.map digit_val)
        ∧ (derive_path env sbi root
            [(c1, u), (c2, "Android".data), (c3, "Obb".data), (c4, pkg)]).userid
          = Nat.ofDigits 10 (u.reverse.map digit_val)) := by
  have hA : strcasecmp "Android".data "Android".data = 0 := by decide
  have hd : strcasecmp "data".data "data".data = 0 := by decide
  have ho1 : strcasecmp "Obb".data "data".data ≠ 0 := by decide
  have ho2 : strcasecmp "Obb".data "obb".data = 0 := by decide
  have hv := simple_strtoul_numeral u hu
  have h3d : (derive_path env sbi root
      [(c1, u), (c2, "Android".data), (c3, "data".data)]).userid
        = Nat.ofDigits 10 (u.reverse.map digit_val) % 2 ^ env.userid_bits := by
    simp only [derive_path, get_derived_permission_new, inherit_derived_state, hroot,
      hA, hd, if_true, hv]
  have h3o : (derive_path env sbi root
      [(c1, u), (c2, "Android".data), (c3, "Obb".data)]).userid
        = Nat.ofDigits 10 (u.reverse.map digit_val) % 2 ^ env.userid_bits := by
    simp only [derive_path, get_derived_permission_new, inherit_derived_state, hroot,
      hA, ho1, ho2, if_true, if_false, hv]
  have h4d : (derive_path env sbi root
      [(c1, u), (c2, "Android".data), (c3, "data".data), (c4, pkg)]).userid
        = Nat.ofDigits 10 (u.reverse.map digit_val) % 2 ^ env.userid_bits := by
    simp only [derive_path, get_derived_permission_new, inherit_derived_state, hroot,
      hA, hd, if_true, hv]
    split <;> rfl
  have h4o : (derive_path env sbi root
      [(c1, u), (c2, "Android".data), (c3, "Obb".data), (c4, pkg)]).userid
        = Nat.ofDigits 10 (u.reverse.map digit_val) % 2 ^ env.userid_bits := by
    simp only [derive_path, get_derived_permission_new, inherit_derived_state, hroot,
      hA, ho1, ho2, if_true, if_false, hv]
    split <;> rfl
  refine ⟨?_, h3d, ?_, h3o, ?_, h4d, ?_, h4o, ?_⟩
  · simp only [derive_path, get_derived_permission_new, inherit_derived_state, hroot,
      hA, hd, if_true]
  · simp only [derive_path, get_derived_permission_new, inherit_derived_state, hroot,
      hA, ho1, ho2, if_true, if_false]
  · simp only [derive_path, get_derived_permission_new, inherit_derived_state, hroot,
      hA, hd, if_true]
    split <;> rfl
  · simp only [derive_path, get_derived_permission_new, inherit_derived_state, hroot,
      hA, ho1, ho2, if_true, if_false]
    split <;> rfl
  · intro hfit
    rw [h3d, h3o, h4d, h4o, Nat.mod_eq_of_lt hfit]
    exact ⟨rfl, rfl, rfl, rfl⟩

/-- C1 (amended), at user `10` and package `com.example.app`, and at the user name
`4294967306`, which is `2 ^ 32 + 10`: with a `userid_t` of 32 bits both give
`userid` 10. -/
theorem derive_user_android_leaf_witness :
    (derive_path sample_env sample_sbi pre_root
        [(fresh, "10".data), (fresh, "Android".data), (fresh, "data".data)]).perm
          = PERM_ANDROID_DATA
    ∧ (derive_path sample_env sample_sbi pre_root
        [(fresh, "10".data), (fresh, "Android".data), (fresh, "data".data),
         (fresh, "com.example.app".data)]).userid = 10
    ∧ (derive_path sample_env sample_sbi pre_root
        [(fresh, "4294967306".data), (fresh, "Android".data), (fresh, "data".data)]).userid
          = 10 :=
  have h := derive_user_android_leaf sample_env sample_sbi pre_root fresh fresh fresh fresh
    "10".data "com.example.app".data rfl (by decide)
  have h2 := derive_user_android_leaf sample_env sample_sbi pre_root fresh fresh fresh fresh
    "4294967306".data "com.example.app".data rfl (by decide)
  ⟨h.1, (h.2.2.2.2.2.2.2.2 (by decide)).2.2.1.trans (by decide), h2.2.1.trans (by decide)⟩

/-- C2: a child of a `PreRoot` parent whose name is not a well-formed decimal
numeral (empty, non-numeric, or digits followed by something else) gets class
`Root` and `userid` 0. -/
theorem pre_root_malformed_name (env : Collab) (sbi : sdcardfs_sb_info)
    (parent_info info : sdcardfs_inode_data) (name : List Char)
    (hparent : parent_info.perm = PERM_PRE_ROOT) (hname : ¬ is_numeral name) :
    (get_derived_permission_new env sbi parent_info info name).perm = PERM_ROOT
    ∧ (get_derived_permission_new env sbi parent_info info name).userid = 0 := by
  simp [get_derived_permission_new, hparent, simple_strtoul_of_not_numeral name 10 hname]

/-- C2 at the names `12abc` and the empty name. -/
theorem pre_root_malformed_name_witness :
    ((get_derived_permission_new sample_env sample_sbi pre_root fresh "12abc".data).perm
        = PERM_ROOT
      ∧ (get_derived_permission_new sample_env sample_sbi pre_root fresh "12abc".data).userid
        = 0)
    ∧ ((get_derived_permission_new sample_env sample_sbi pre_root fresh []).perm = PERM_ROOT
      ∧ (get_derived_permission_new sample_env sample_sbi pre_root fresh []).userid = 0) :=
  ⟨pre_root_malformed_name sample_env sample_sbi pre_root fresh "12abc".data rfl (by decide),
   pre_root_malformed_name sample_env sample_sbi pre_root fresh [] rfl (by decide)⟩

/-! ## The obb anchors -/

/-- C3: `need_graft_path` returns 1 exactly when the parent's class is `Android`,
the name equals `obb` up to the case of ASCII letters, and multiuser is enabled or
the parent's `userid` is not 0; in every other case it returns 0. -/
theorem need_graft_path_iff (sbi : sdcardfs_sb_info) (parent_info : sdcardfs_inode_data)
    (name : List Char) (hname : NUL ∉ name) :
    (need_graft_path sbi parent_info name = 1 ↔
        parent_info.perm = PERM_ANDROID ∧ name.map tolower = "obb".data
          ∧ (sbi.options.multiuser = true ∨ parent_info.userid ≠ 0))
    ∧ (¬ (parent_info.perm = PERM_ANDROID ∧ name.map tolower = "obb".data
          ∧ (sbi.options.multiuser = true ∨ parent_info.userid ≠ 0)) →
        need_graft_path sbi parent_info name = 0) := by
  have hobb := strcasecmp_obb_iff name hname
  unfold need_graft_path
  simp only [hobb]
  by_cases hp : parent_info.perm = PERM_ANDROID <;>
    by_cases hn : name.map tolower = "obb".data <;>
    by_cases hm : sbi.options.multiuser = true <;>
    by_cases hu : parent_info.userid = 0 <;>
    simp [hp, hn, hm, hu]

/-- C3 at the name `OBB` below the `Android` directory of user 10, single-user
mount. -/
theorem need_graft_path_iff_witness :
    need_graft_path { sample_sbi with options := { sample_sbi.options with multiuser := false } }
      { fresh with perm := PERM_ANDROID, userid := 10 } "OBB".data = 1 :=
  ((need_graft_path_iff
      { sample_sbi with options := { sample_sbi.options with multiuser := false } }
      { fresh with perm := PERM_ANDROID, userid := 10 } "OBB".data (by decide)).1).2
    (by decide)

/-- C4: `is_base_obbpath` returns 1 exactly when the name equals `obb` up to the
case of ASCII letters and the parent's class is `PreRoot` on a multiuser mount,
`Android` on a single-user mount, and 0 otherwise; on a multiuser mount the `obb`
directory below an `Android` parent is no base obb path but is a path to graft. -/
theorem is_base_obbpath_iff (sbi : sdcardfs_sb_info) (parent_info : sdcardfs_inode_data)
    (name : List Char) (hname : NUL ∉ name) :
    (is_base_obbpath sbi parent_info name = 1 ↔
        name.map tolower = "obb".data
          ∧ ((sbi.options.multiuser = true ∧ parent_info.perm = PERM_PRE_ROOT)
            ∨ (sbi.options.multiuser = false ∧ parent_info.perm = PERM_ANDROID)))
    ∧ (is_base_obbpath sbi parent_info name = 1 ∨ is_base_obbpath sbi parent_info name = 0)
    ∧ (sbi.options.multiuser = true → parent_info.perm = PERM_ANDROID →
        is_base_obbpath sbi parent_info "obb".data = 0
          ∧ need_graft_path sbi parent_info "obb".data = 1) := by
  have hobb := strcasecmp_obb_iff name hname
  have hlit : strcasecmp "obb".data "obb".data = 0 := by decide
  unfold is_base_obbpath need_graft_path
  simp only [hobb, hlit]
  by_cases hp : parent_info.perm = PERM_ANDROID <;>
    by_cases hr : parent_info.perm = PERM_PRE_ROOT <;>
    by_cases hn : name.map tolower = "obb".data <;>
    by_cases hm : sbi.options.multiuser = true <;>
    simp_all

/-- C4 at `0/Android/obb` on a multiuser mount. -/
theorem is_base_obbpath_iff_witness :
    is_base_obbpath sample_sbi { fresh with perm := PERM_ANDROID } "obb".data = 0
    ∧ need_graft_path sample_sbi { fresh with perm := PERM_ANDROID } "obb".data = 1 :=
  (is_base_obbpath_iff sample_sbi { fresh with perm := PERM_ANDROID } "obb".data
    (by decide)).2.2 rfl rfl

/-- C5 (as the claim states it, refuted): the obb path does not resolve, the call
returns `-ENOENT`, and the dentry that had no path recorded has its `orig_path`
recorded afterwards. -/
theorem setup_obb_dentry_records_orig_path :
    (setup_obb_dentry sample_kernel sample_sbi unbound { mnt := 1, dentry := 7 }).1 = -2
    ∧ (setup_obb_dentry sample_kernel sample_sbi unbound { mnt := 1, dentry := 7 }).2.1.orig_path
        ≠ none
    ∧ (setup_obb_dentry sample_kernel sample_sbi unbound { mnt := 1, dentry := 7 }).2.1
        ≠ unbound := by
  decide

/-- C5 (amended): when the obb path does not resolve, `setup_obb_dentry` returns
the non-zero error of the resolution, has recorded the caller's path as the
dentry's `orig_path`, leaves the dentry's `lower_path` as it was and leaves the
caller's `lower_path` unchanged. -/
theorem setup_obb_dentry_unresolved (k : Kernel) (sbi : sdcardfs_sb_info)
    (di : sdcardfs_dentry_info) (lower_path : path)
    (hfail : (k.kern_path sbi.obbpath_s (k.LOOKUP_FOLLOW ||| k.LOOKUP_DIRECTORY)).1 ≠ 0) :
    (setup_obb_dentry k sbi di lower_path).1 ≠ 0
    ∧ (setup_obb_dentry k sbi di lower_path).1
        = (k.kern_path sbi.obbpath_s (k.LOOKUP_FOLLOW ||| k.LOOKUP_DIRECTORY)).1
    ∧ (setup_obb_dentry k sbi di lower_path).2.1.orig_path = some lower_path
    ∧ (setup_obb_dentry k sbi di lower_path).2.1.lower_path = di.lower_path
    ∧ (setup_obb_dentry k sbi di lower_path).2.2 = lower_path := by
  simp [setup_obb_dentry, sdcardfs_set_orig_path, hfail]

/-- C5 (amended) at a dentry with nothing recorded and an obb path that does not
resolve. -/
theorem setup_obb_dentry_unresolved_witness :
    (setup_obb_dentry sample_kernel sample_sbi unbound { mnt := 1, dentry := 7 }).2.1.orig_path
        = some { mnt := 1, dentry := 7 }
    ∧ (setup_obb_dentry sample_kernel sample_sbi unbound { mnt := 1, dentry := 7 }).2.2
        = { mnt := 1, dentry := 7 } :=
  have h := setup_obb_dentry_unresolved sample_kernel sample_sbi unbound
    { mnt := 1, dentry := 7 } (by decide)
  ⟨h.2.2.1, h.2.2.2.2⟩

/-! ## Fix-up targets -/

/-- C6: the uid the fix-up aims at, class by class: `multiuser_get_uid` of the
node's `userid` and the mount's low uid for `Root`, `Android`, `AndroidData`,
`AndroidMedia`, `AndroidPackage` and `AndroidPackageCache`; `AID_MEDIA_OBB` for
`AndroidObb`; the mount's low uid itself for `PreRoot` and `Inherit`. -/
theorem fixup_uid_table (env : Collab) (sbi : sdcardfs_sb_info)
    (info_d : sdcardfs_inode_data) :
    fixup_uid env sbi info_d PERM_ROOT
        = env.multiuser_get_uid info_d.userid sbi.options.fs_low_uid
    ∧ fixup_uid env sbi info_d PERM_ANDROID
        = env.multiuser_get_uid info_d.userid sbi.options.fs_low_uid
    ∧ fixup_uid env sbi info_d PERM_ANDROID_DATA
        = env.multiuser_get_uid info_d.userid sbi.options.fs_low_uid
    ∧ fixup_uid env sbi info_d PERM_ANDROID_MEDIA
        = env.multiuser_get_uid info_d.userid sbi.options.fs_low_uid
    ∧ fixup_uid env sbi info_d PERM_ANDROID_PACKAGE
        = env.multiuser_get_uid info_d.userid sbi.options.fs_low_uid
    ∧ fixup_uid env sbi info_d PERM_ANDROID_PACKAGE_CACHE
        = env.multiuser_get_uid info_d.userid sbi.options.fs_low_uid
    ∧ fixup_uid env sbi info_d PERM_ANDROID_OBB = env.AID_MEDIA_OBB
    ∧ fixup_uid env sbi info_d PERM_PRE_ROOT = sbi.options.fs_low_uid
    ∧ fixup_uid env sbi info_d PERM_INHERIT = sbi.options.fs_low_uid := by
  simp [fixup_uid]

/-- What `fixup_gid` computes for class `Root`, `Android`, `AndroidData` or
`AndroidMedia`: the gid aimed at is `multiuser_get_uid userid AID_MEDIA_RW` for a
directory, whatever its name; for a non-directory it is `multiuser_get_uid userid g`, where `g` is
`AID_MEDIA_RW` when the name has no dot, the extension table's group for the text
after the last dot when that group is not 0, and `AID_MEDIA_RW` when that group is
0 (the text after the last dot may be empty: it is looked up like any other). -/
theorem fixup_gid_media_classes (env : Collab) (sbi : sdcardfs_sb_info)
    (info_d : sdcardfs_inode_data) (perm : perm_t) (i_mode : Nat) (name : List Char)
    (hperm : perm = PERM_ROOT ∨ perm = PERM_ANDROID ∨ perm = PERM_ANDROID_DATA
      ∨ perm = PERM_ANDROID_MEDIA) :
    (env.S_ISDIR i_mode = true →
        fixup_gid env sbi info_d perm i_mode name
          = env.multiuser_get_uid info_d.userid env.AID_MEDIA_RW)
    ∧ (env.S_ISDIR i_mode = false → '.' ∉ name →
        fixup_gid env sbi info_d perm i_mode name
          = env.multiuser_get_uid info_d.userid env.AID_MEDIA_RW)
    ∧ (env.S_ISDIR i_mode = false → ∀ pre ext : List Char, name = pre ++ '.' :: ext →
        '.' ∉ ext →
          (env.get_ext_gid ext ≠ 0 →
            fixup_gid env sbi info_d perm i_mode name
              = env.multiuser_get_uid info_d.userid (env.get_ext_gid ext))
          ∧ (env.get_ext_gid ext = 0 →
            fixup_gid env sbi info_d perm i_mode name
              = env.multiuser_get_uid info_d.userid env.AID_MEDIA_RW)) := by
  refine ⟨?_, ?_, ?_⟩
  · intro hdir
    rcases hperm with h | h | h | h <;> simp [fixup_gid, h, hdir]
  · intro hdir hdot
    rcases hperm with h | h | h | h <;> simp [fixup_gid, h, hdir, get_type_no_dot env name hdot]
  · intro hdir pre ext hname hdot
    subst hname
    refine ⟨?_, ?_⟩
    · intro hg
      rcases hperm with h | h | h | h <;>
        simp [fixup_gid, h, hdir, get_type_ext env pre ext hdot, hg]
    · intro hg
      rcases hperm with h | h | h | h <;>
        simp [fixup_gid, h, hdir, get_type_ext env pre ext hdot, hg]

/-- The gid aimed at for the regular file `song.mp3` of class `AndroidMedia`,
user 10. -/
theorem fixup_gid_media_classes_witness :
    fixup_gid sample_env sample_sbi sample_media_child.data PERM_ANDROID_MEDIA 33188
        "song.mp3".data
      = sample_env.multiuser_get_uid 10 1055 :=
  ((fixup_gid_media_classes sample_env sample_sbi sample_media_child.data PERM_ANDROID_MEDIA
      33188 "song.mp3".data (by decide)).2.2 (by decide) "song".data "mp3".data (by decide)
      (by decide)).1 (by decide)

/-- With an extension table that has no group for the empty extension, a
non-directory whose name ends in a dot gets the gid built from `AID_MEDIA_RW`. -/
theorem fixup_gid_trailing_dot (env : Collab) (sbi : sdcardfs_sb_info)
    (info_d : sdcardfs_inode_data) (perm : perm_t) (i_mode : Nat) (pre : List Char)
    (hperm : perm = PERM_ROOT ∨ perm = PERM_ANDROID ∨ perm = PERM_ANDROID_DATA
      ∨ perm = PERM_ANDROID_MEDIA)
    (hdir : env.S_ISDIR i_mode = false) (hreg : env.get_ext_gid [] = 0) :
    fixup_gid env sbi info_d perm i_mode (pre ++ ['.'])
      = env.multiuser_get_uid info_d.userid env.AID_MEDIA_RW :=
  ((fixup_gid_media_classes env sbi info_d perm i_mode (pre ++ ['.']) hperm).2.2 hdir
    pre [] rfl (by simp)).2 hreg

/-- C8 (as the claim states it, refuted): a directory `song.mp3` below
`Android/media` of user 10, with `mp3` mapped to group 1055: the gid aimed at is
built from `AID_MEDIA_RW`, not from the group of `mp3`. -/
theorem directory_ignores_extension :
    fixup_perm sample_media_child = PERM_ANDROID_MEDIA
    ∧ sample_env.S_ISDIR 16877 = true
    ∧ sample_env.get_ext_gid "mp3".data = 1055
    ∧ fixup_gid sample_env sample_sbi sample_media_child.data (fixup_perm sample_media_child)
        16877 "song.mp3".data
      = sample_env.multiuser_get_uid 10 sample_env.AID_MEDIA_RW
    ∧ fixup_gid sample_env sample_sbi sample_media_child.data (fixup_perm sample_media_child)
        16877 "song.mp3".data
      ≠ sample_env.multiuser_get_uid 10 (sample_env.get_ext_gid "mp3".data) := by
  decide

/-- C8 (amended): for a node the fix-up treats as `AndroidMedia`, with `mp3`
mapped to a group and `xyz` unknown to the extension table: a non-directory
`song.mp3` gets gid `multiuser_get_uid userid (group of mp3)`, a directory
`song.mp3` gets `multiuser_get_uid userid AID_MEDIA_RW`, and `song.xyz` gets
`multiuser_get_uid userid AID_MEDIA_RW`, directory or not. -/
theorem fixup_gid_song (env : Collab) (sbi : sdcardfs_sb_info)
    (info : sdcardfs_inode_info) (i_mode : Nat)
    (hperm : fixup_perm info = PERM_ANDROID_MEDIA)
    (hmp3 : env.get_ext_gid "mp3".data ≠ 0) (hxyz : env.get_ext_gid "xyz".data = 0) :
    (env.S_ISDIR i_mode = false →
        fixup_gid env sbi info.data (fixup_perm info) i_mode "song.mp3".data
          = env.multiuser_get_uid info.data.userid (env.get_ext_gid "mp3".data))
    ∧ (env.S_ISDIR i_mode = true →
        fixup_gid env sbi info.data (fixup_perm info) i_mode "song.mp3".data
          = env.multiuser_get_uid info.data.userid env.AID_MEDIA_RW)
    ∧ fixup_gid env sbi info.data (fixup_perm info) i_mode "song.xyz".data
          = env.multiuser_get_uid info.data.userid env.AID_MEDIA_RW := by
  have h1 : get_type env "song.mp3".data = env.get_ext_gid "mp3".data := by
    have := get_type_ext env "song".data "mp3".data (by decide)
    simpa [hmp3] using this
  have h2 : get_type env "song.xyz".data = env.AID_MEDIA_RW := by
    have := get_type_ext env "song".data "xyz".data (by decide)
    simpa [hxyz] using this
  rw [hperm]
  refine ⟨?_, ?_, ?_⟩
  · intro hdir
    simp [fixup_gid, hdir, h1]
  · intro hdir
    simp [fixup_gid, hdir]
  · cases hdir : env.S_ISDIR i_mode <;> simp [fixup_gid, hdir, h2]

/-- C8 (amended) at a regular file below `Android/media` of user 10. -/
theorem fixup_gid_song_witness :
    fixup_gid sample_env sample_sbi sample_media_child.data (fixup_perm sample_media_child)
        33188 "song.mp3".data
      = sample_env.multiuser_get_uid 10 (sample_env.get_ext_gid "mp3".data) :=
  (fixup_gid_song sample_env sample_sbi sample_media_child 33188 (by decide) (by decide)
    (by decide)).1 (by decide)

/-- C9: the class the fix-up works with: `AndroidObb` when `under_obb` is set (uid
and gid aimed at are then both `AID_MEDIA_OBB`, whatever the rest of the state,
the name, the mode and the mount's low ids); else `AndroidPackageCache` when
`under_cache` is set; else the class `top_data_get` gives when the node's class is
`Inherit`; else the node's own class. -/
theorem fixup_perm_priority (env : Collab) (sbi : sdcardfs_sb_info)
    (info : sdcardfs_inode_info) (i_mode : Nat) (name : List Char) :
    (info.data.under_obb = true →
        fixup_perm info = PERM_ANDROID_OBB
        ∧ fixup_uid env sbi info.data (fixup_perm info) = env.AID_MEDIA_OBB
        ∧ fixup_gid env sbi info.data (fixup_perm info) i_mode name = env.AID_MEDIA_OBB)
    ∧ (info.data.under_obb = false → info.data.under_cache = true →
        fixup_perm info = PERM_ANDROID_PACKAGE_CACHE)
    ∧ (info.data.under_obb = false → info.data.under_cache = false →
        info.data.perm = PERM_INHERIT →
        fixup_perm info = (top_data_get info).perm)
    ∧ (info.data.under_obb = false → info.data.under_cache = false →
        info.data.perm ≠ PERM_INHERIT →
        fixup_perm info = info.data.perm) := by
  refine ⟨?_, ?_, ?_, ?_⟩
  · intro h
    simp [fixup_perm, fixup_uid, fixup_gid, h]
  · intro h1 h2
    simp [fixup_perm, h1, h2]
  · intro h1 h2 h3
    simp [fixup_perm, h1, h2, h3]
  · intro h1 h2 h3
    simp [fixup_perm, h1, h2, h3]

/-- C10: with gid derivation switched off `fixup_lower_ownership` returns the
state it was given: nothing is added to the log (no policy check, no attribute
change), the lower inode keeps uid, gid and mode, and the inode info is the same. -/
theorem fixup_noop_without_gid_derivation (env : Collab) (k : Kernel)
    (sbi : sdcardfs_sb_info) (name : List Char) (w : fixup_state)
    (hoff : sbi.options.gid_derivation = false) :
    fixup_lower_ownership env k sbi name w = w
    ∧ (fixup_lower_ownership env k sbi name w).log = w.log
    ∧ (fixup_lower_ownership env k sbi name w).lower = w.lower
    ∧ (fixup_lower_ownership env k sbi name w).info = w.info := by
  simp [fixup_lower_ownership, hoff]

/-- C10 at a file below `Android/media` whose lower inode is owned by root and set-uid:
nothing is asked of the kernel and nothing changes. -/
theorem fixup_noop_without_gid_derivation_witness :
    fixup_lower_ownership sample_env sample_kernel sample_sbi_no_gid "song.mp3".data
        { info := sample_media_child, i_mode := 33188,
          lower := { i_uid := 0, i_gid := 0, i_mode := 35309 }, log := [] }
      = { info := sample_media_child, i_mode := 33188,
          lower := { i_uid := 0, i_gid := 0, i_mode := 35309 }, log := [] } :=
  (fixup_noop_without_gid_derivation sample_env sample_kernel sample_sbi_no_gid
    "song.mp3".data
    { info := sample_media_child, i_mode := 33188,
      lower := { i_uid := 0, i_gid := 0, i_mode := 35309 }, log := [] } rfl).1

/-! ## The apply step of the fix-up -/

/-- C11 (as the claim states it, refuted): the lower inode of `song.mp3` is owned
by 0:0, the fix-up aims at other ids, the security policy rejects the change, and
no attribute change is requested: the only request is the policy check. -/
theorem denied_change_is_not_requested :
    sample_fixup_state.lower.i_uid
        ≠ fixup_uid sample_env sample_sbi sample_fixup_state.info.data
            (fixup_perm sample_fixup_state.info)
    ∧ (fixup_lower_ownership sample_env sample_kernel_deny sample_sbi "song.mp3".data
        sample_fixup_state).log = [event.chown_check 1001023 1001055] := by
  decide

/-- C11 (amended): with gid derivation enabled, let `uid` and `gid` be the ids the
fix-up aims at. When the lower inode already has them, nothing is asked of the
kernel. When one of them differs, the policy check is asked for `uid`, `gid`; an
attribute change is requested exactly when that check allows it, and the request
then carries `uid` and `gid` and the flag set `ATTR_GID, ATTR_UID, ATTR_FORCE` for
a lower directory, the same set with `ATTR_KILL_SUID, ATTR_KILL_SGID,
ATTR_KILL_PRIV` added for a lower non-directory. -/
theorem fixup_apply_step (env : Collab) (k : Kernel) (sbi : sdcardfs_sb_info)
    (name : List Char) (w : fixup_state) (uid gid : Nat)
    (hon : sbi.options.gid_derivation = true)
    (huid : uid = fixup_uid env sbi w.info.data (fixup_perm w.info))
    (hgid : gid = fixup_gid env sbi w.info.data (fixup_perm w.info) w.i_mode name) :
    (w.lower.i_uid = uid ∧ w.lower.i_gid = gid →
        fixup_lower_ownership env k sbi name w = w)
    ∧ ((w.lower.i_uid ≠ uid ∨ w.lower.i_gid ≠ gid) →
        k.security_path_chown w.lower uid gid ≠ 0 →
        (fixup_lower_ownership env k sbi name w).log
          = w.log ++ [event.chown_check uid gid])
    ∧ ((w.lower.i_uid ≠ uid ∨ w.lower.i_gid ≠ gid) →
        k.security_path_chown w.lower uid gid = 0 →
        env.S_ISDIR w.lower.i_mode = true →
        (fixup_lower_ownership env k sbi name w).log
          = w.log ++ [event.chown_check uid gid,
              event.change { ia_valid := {ATTR_GID, ATTR_UID, ATTR_FORCE},
                             ia_uid := uid, ia_gid := gid }])
    ∧ ((w.lower.i_uid ≠ uid ∨ w.lower.i_gid ≠ gid) →
        k.security_path_chown w.lower uid gid = 0 →
        env.S_ISDIR w.lower.i_mode = false →
        (fixup_lower_ownership env k sbi name w).log
          = w.log ++ [event.chown_check uid gid,
              event.change { ia_valid := {ATTR_GID, ATTR_UID, ATTR_FORCE,
                                          ATTR_KILL_SUID, ATTR_KILL_SGID, ATTR_KILL_PRIV},
                             ia_uid := uid, ia_gid := gid }]) := by
  subst huid hgid
  have hU : ({ATTR_GID, ATTR_UID, ATTR_FORCE} : Finset attr_flag)
      ∪ {ATTR_KILL_SUID, ATTR_KILL_SGID, ATTR_KILL_PRIV}
      = {ATTR_GID, ATTR_UID, ATTR_FORCE, ATTR_KILL_SUID, ATTR_KILL_SGID, ATTR_KILL_PRIV} := by
    decide
  refine ⟨?_, ?_, ?_, ?_⟩
  · rintro ⟨h1, h2⟩
    simp [fixup_lower_ownership, hon, h1, h2]
  · intro hd hc
    have hd2 : w.lower.i_gid ≠ fixup_gid env sbi w.info.data (fixup_perm w.info) w.i_mode name
        ∨ w.lower.i_uid ≠ fixup_uid env sbi w.info.data (fixup_perm w.info) := hd.symm
    simp only [fixup_lower_ownership, hon, Bool.true_eq_false, if_false, hd2, if_true, hc]
  · intro hd hc hdir
    have hd2 : w.lower.i_gid ≠ fixup_gid env sbi w.info.data (fixup_perm w.info) w.i_mode name
        ∨ w.lower.i_uid ≠ fixup_uid env sbi w.info.data (fixup_perm w.info) := hd.symm
    simp [fixup_lower_ownership, hon, hd2, hc, hdir]
  · intro hd hc hdir
    have hd2 : w.lower.i_gid ≠ fixup_gid env sbi w.info.data (fixup_perm w.info) w.i_mode name
        ∨ w.lower.i_uid ≠ fixup_uid env sbi w.info.data (fixup_perm w.info) := hd.symm
    simp [fixup_lower_ownership, hon, hd2, hc, hdir, hU]

/-- C11 (amended) at the regular file `song.mp3` owned by 0:0 below `Android/media`
of user 10, with a policy that allows the change. -/
theorem fixup_apply_step_witness :
    (fixup_lower_ownership sample_env sample_kernel sample_sbi "song.mp3".data
        sample_fixup_state).log
      = [] ++ [event.chown_check 1001023 1001055,
          event.change { ia_valid := {ATTR_GID, ATTR_UID, ATTR_FORCE,
                                      ATTR_KILL_SUID, ATTR_KILL_SGID, ATTR_KILL_PRIV},
                         ia_uid := 1001023, ia_gid := 1001055 }] :=
  (fixup_apply_step sample_env sample_kernel sample_sbi "song.mp3".data sample_fixup_state
    1001023 1001055 rfl (by decide) (by decide)).2.2.2 (by decide) (by decide) (by decide)

/-- C12: when the security policy rejects the ownership change, no attribute
change is requested (the log grows by nothing or by the policy check alone), the
lower inode keeps uid, gid and mode, the inode info is the same, and the function
returns its state as always; and the error code of the attribute change never
shows: two kernels that differ only in that code give the same result. -/
theorem fixup_errors_swallowed (env : Collab) (k : Kernel) (sbi : sdcardfs_sb_info)
    (name : List Char) (w : fixup_state) :
    (k.security_path_chown w.lower (fixup_uid env sbi w.info.data (fixup_perm w.info))
          (fixup_gid env sbi w.info.data (fixup_perm w.info) w.i_mode name) ≠ 0 →
        (fixup_lower_ownership env k sbi name w).lower = w.lower
        ∧ (fixup_lower_ownership env k sbi name w).info = w.info
        ∧ ((fixup_lower_ownership env k sbi name w).log = w.log
          ∨ (fixup_lower_ownership env k sbi name w).log
              = w.log ++ [event.chown_check
                  (fixup_uid env sbi w.info.data (fixup_perm w.info))
                  (fixup_gid env sbi w.info.data (fixup_perm w.info) w.i_mode name)]))
    ∧ (∀ k2 : Kernel, k2.security_path_chown = k.security_path_chown →
        (∀ inode attrs, (k2.notify_change2 inode attrs).2 = (k.notify_change2 inode attrs).2) →
        fixup_lower_ownership env k2 sbi name w = fixup_lower_ownership env k sbi name w) := by
  refine ⟨?_, ?_⟩
  · intro hdeny
    unfold fixup_lower_ownership
    by_cases hoff : sbi.options.gid_derivation = false
    · simp [hoff]
    · by_cases hd : w.lower.i_gid ≠ fixup_gid env sbi w.info.data (fixup_perm w.info) w.i_mode name
          ∨ w.lower.i_uid ≠ fixup_uid env sbi w.info.data (fixup_perm w.info)
      · simp only [hoff, if_false, hd, if_true, hdeny]
        simp
      · simp only [hoff, if_false, hd]
        simp
  · intro k2 hsec hnot
    unfold fixup_lower_ownership
    simp only [hsec, hnot]

/-- C12 at the regular file `song.mp3` owned by 0:0 with a policy that rejects the
change: the lower inode is still owned by 0:0. -/
theorem fixup_errors_swallowed_witness :
    (fixup_lower_ownership sample_env sample_kernel_deny sample_sbi "song.mp3".data
        sample_fixup_state).lower = sample_fixup_state.lower :=
  ((fixup_errors_swallowed sample_env sample_kernel_deny sample_sbi "song.mp3".data
    sample_fixup_state).1 (by decide)).1

/-! ## Properties of the single-level derivation -/

/-- The class a derivation assigns depends on the class of the parent and on the
name alone. -/
theorem derive_perm_cases (env : Collab) (sbi : sdcardfs_sb_info)
    (parent_info info : sdcardfs_inode_data) (name : List Char) :
    (get_derived_permission_new env sbi parent_info info name).perm
      = match parent_info.perm with
        | PERM_PRE_ROOT => PERM_ROOT
        | PERM_ROOT => if strcasecmp name "Android".data = 0 then PERM_ANDROID else PERM_INHERIT
        | PERM_ANDROID =>
          if strcasecmp name "data".data = 0 then PERM_ANDROID_DATA
          else if strcasecmp name "obb".data = 0 then PERM_ANDROID_OBB
          else if strcasecmp name "media".data = 0 then PERM_ANDROID_MEDIA
          else PERM_INHERIT
        | _ => PERM_INHERIT := by
  unfold get_derived_permission_new inherit_derived_state
  cases parent_info.perm <;> simp only [] <;> repeat (first | rfl | split)

/-- The flag `under_android` of a derived node: set when the node is classified
`Android`, the parent's flag otherwise. -/
theorem derive_under_android (env : Collab) (sbi : sdcardfs_sb_info)
    (parent_info info : sdcardfs_inode_data) (name : List Char) :
    (get_derived_permission_new env sbi parent_info info name).under_android
      = (parent_info.under_android
          || decide ((get_derived_permission_new env sbi parent_info info name).perm
                = PERM_ANDROID)) := by
  unfold get_derived_permission_new inherit_derived_state
  cases parent_info.perm <;> simp only [] <;>
    repeat (first | simp | split)

/-- The `userid` of a derived node is the parent's unless the parent is `PreRoot`. -/
theorem derive_userid (env : Collab) (sbi : sdcardfs_sb_info)
    (parent_info info : sdcardfs_inode_data) (name : List Char)
    (h : parent_info.perm ≠ PERM_PRE_ROOT) :
    (get_derived_permission_new env sbi parent_info info name).userid = parent_info.userid := by
  cases hperm : parent_info.perm <;>
    simp only [get_derived_permission_new, inherit_derived_state, hperm] <;>
    first
      | exact absurd hperm h
      | rfl
      | (split_ifs <;> rfl)

/-- C18: the `d_uid` of a derived child is `multiuser_get_uid` of the parent's
`userid` and the appid of the child's name when the parent's class is
`AndroidData`, `AndroidObb` or `AndroidMedia` and that appid is not 0, and the
parent's `d_uid` in every other case; so it differs from the parent's only in the
first case. The child's `userid` is the parent's unless the parent is `PreRoot`. -/
theorem derive_owner_frame (env : Collab) (sbi : sdcardfs_sb_info)
    (parent_info info : sdcardfs_inode_data) (name : List Char) :
    ((parent_info.perm = PERM_ANDROID_DATA ∨ parent_info.perm = PERM_ANDROID_OBB
          ∨ parent_info.perm = PERM_ANDROID_MEDIA) →
        env.get_appid sbi.pkgl_id name ≠ 0 →
        (get_derived_permission_new env sbi parent_info info name).d_uid
          = env.multiuser_get_uid parent_info.userid (env.get_appid sbi.pkgl_id name))
    ∧ (env.get_appid sbi.pkgl_id name = 0 →
        (get_derived_permission_new env sbi parent_info info name).d_uid = parent_info.d_uid)
    ∧ (¬ (parent_info.perm = PERM_ANDROID_DATA ∨ parent_info.perm = PERM_ANDROID_OBB
          ∨ parent_info.perm = PERM_ANDROID_MEDIA) →
        (get_derived_permission_new env sbi parent_info info name).d_uid = parent_info.d_uid)
    ∧ ((get_derived_permission_new env sbi parent_info info name).d_uid ≠ parent_info.d_uid →
        (parent_info.perm = PERM_ANDROID_DATA ∨ parent_info.perm = PERM_ANDROID_OBB
          ∨ parent_info.perm = PERM_ANDROID_MEDIA)
        ∧ env.get_appid sbi.pkgl_id name ≠ 0)
    ∧ (parent_info.perm ≠ PERM_PRE_ROOT →
        (get_derived_permission_new env sbi parent_info info name).userid
          = parent_info.userid) := by
  refine ⟨?_, ?_, ?_, ?_, derive_userid env sbi parent_info info name⟩
  · intro hp ha
    unfold get_derived_permission_new inherit_derived_state
    rcases hp with h | h | h <;> simp [h, ha]
  · intro ha
    cases hperm : parent_info.perm <;>
      simp only [get_derived_permission_new, inherit_derived_state, hperm, ha] <;>
      first
        | rfl
        | (split_ifs <;> rfl)
  · intro hp
    cases hperm : parent_info.perm <;>
      simp only [get_derived_permission_new, inherit_derived_state, hperm] <;>
      first
        | exact absurd (Or.inl hperm) hp
        | exact absurd (Or.inr (Or.inl hperm)) hp
        | exact absurd (Or.inr (Or.inr hperm)) hp
        | rfl
        | (split_ifs <;> rfl)
  · intro hne
    by_cases hp : parent_info.perm = PERM_ANDROID_DATA ∨ parent_info.perm = PERM_ANDROID_OBB
        ∨ parent_info.perm = PERM_ANDROID_MEDIA
    · refine ⟨hp, ?_⟩
      intro ha
      apply hne
      cases hperm : parent_info.perm <;>
        simp only [get_derived_permission_new, inherit_derived_state, hperm, ha] <;>
        first
          | rfl
          | (split_ifs <;> rfl)
    · exfalso
      apply hne
      cases hperm : parent_info.perm <;>
        simp only [get_derived_permission_new, inherit_derived_state, hperm] <;>
        first
          | exact absurd (Or.inl hperm) hp
          | exact absurd (Or.inr (Or.inl hperm)) hp
          | exact absurd (Or.inr (Or.inr hperm)) hp
          | rfl
          | (split_ifs <;> rfl)

/-- C20: the class a derivation assigns is one of `Inherit`, `Root`, `Android`,
`AndroidData`, `AndroidObb`, `AndroidMedia`, never `PreRoot`, `AndroidPackage` or
`AndroidPackageCache`; below a parent of class `Inherit`, `AndroidData`,
`AndroidObb`, `AndroidMedia`, `AndroidPackage` or `AndroidPackageCache` it is
`Inherit`; and when the fix-up treats a derived node as a package class, the
node's `under_cache` flag is set or the class comes from the `top` data. -/
theorem derive_class_range (env : Collab) (sbi : sdcardfs_sb_info)
    (parent_info info : sdcardfs_inode_data) (name : List Char) :
    ((get_derived_permission_new env sbi parent_info info name).perm = PERM_INHERIT
      ∨ (get_derived_permission_new env sbi parent_info info name).perm = PERM_ROOT
      ∨ (get_derived_permission_new env sbi parent_info info name).perm = PERM_ANDROID
      ∨ (get_derived_permission_new env sbi parent_info info name).perm = PERM_ANDROID_DATA
      ∨ (get_derived_permission_new env sbi parent_info info name).perm = PERM_ANDROID_OBB
      ∨ (get_derived_permission_new env sbi parent_info info name).perm = PERM_ANDROID_MEDIA)
    ∧ (get_derived_permission_new env sbi parent_info info name).perm ≠ PERM_PRE_ROOT
    ∧ (get_derived_permission_new env sbi parent_info info name).perm ≠ PERM_ANDROID_PACKAGE
    ∧ (get_derived_permission_new env sbi parent_info info name).perm
        ≠ PERM_ANDROID_PACKAGE_CACHE
    ∧ ((parent_info.perm = PERM_INHERIT ∨ parent_info.perm = PERM_ANDROID_DATA
          ∨ parent_info.perm = PERM_ANDROID_OBB ∨ parent_info.perm = PERM_ANDROID_MEDIA
          ∨ parent_info.perm = PERM_ANDROID_PACKAGE
          ∨ parent_info.perm = PERM_ANDROID_PACKAGE_CACHE) →
        (get_derived_permission_new env sbi parent_info info name).perm = PERM_INHERIT)
    ∧ (∀ top : sdcardfs_inode_data,
        (fixup_perm { data := get_derived_permission_new env sbi parent_info info name,
                      top := top } = PERM_ANDROID_PACKAGE
          ∨ fixup_perm { data := get_derived_permission_new env sbi parent_info info name,
                         top := top } = PERM_ANDROID_PACKAGE_CACHE) →
        info.under_cache = true ∨ top.perm = PERM_ANDROID_PACKAGE
          ∨ top.perm = PERM_ANDROID_PACKAGE_CACHE) := by
  have hp := derive_perm_cases env sbi parent_info info name
  have hc : (get_derived_permission_new env sbi parent_info info name).under_cache
      = info.under_cache := by
    unfold get_derived_permission_new inherit_derived_state
    cases parent_info.perm <;> simp only [] <;> repeat (first | rfl | split)
  have hrange : (get_derived_permission_new env sbi parent_info info name).perm = PERM_INHERIT
      ∨ (get_derived_permission_new env sbi parent_info info name).perm = PERM_ROOT
      ∨ (get_derived_permission_new env sbi parent_info info name).perm = PERM_ANDROID
      ∨ (get_derived_permission_new env sbi parent_info info name).perm = PERM_ANDROID_DATA
      ∨ (get_derived_permission_new env sbi parent_info info name).perm = PERM_ANDROID_OBB
      ∨ (get_derived_permission_new env sbi parent_info info name).perm
          = PERM_ANDROID_MEDIA := by
    rw [hp]
    cases parent_info.perm <;> simp only [] <;>
      first
        | (split_ifs <;> simp)
        | simp
  refine ⟨hrange, ?_, ?_, ?_, ?_, ?_⟩
  · rcases hrange with h | h | h | h | h | h <;> simp [h]
  · rcases hrange with h | h | h | h | h | h <;> simp [h]
  · rcases hrange with h | h | h | h | h | h <;> simp [h]
  · intro h
    rw [hp]
    rcases h with h | h | h | h | h | h <;> simp [h]
  · intro top
    unfold fixup_perm top_data_get
    simp only [hc]
    by_cases hcache : info.under_cache = true
    · intro _; exact Or.inl hcache
    · intro h
      right
      by_cases hobb : (get_derived_permission_new env sbi parent_info info name).under_obb = true
      · simp [hobb] at h
      · simp only [hobb, hcache, if_false, Bool.false_eq_true] at h
        rcases hrange with g | g | g | g | g | g <;> simp [g] at h ⊢
        exact h

/-! ## Case-insensitive names -/

/-- Two names without NUL that agree after lowering every ASCII letter compare
alike against any fixed name. -/
theorem strcasecmp_congr (a b lit : List Char) (ha : NUL ∉ a) (hb : NUL ∉ b)
    (hlit : NUL ∉ lit) (hab : a.map tolower = b.map tolower) :
    (strcasecmp a lit = 0) = (strcasecmp b lit = 0) := by
  rw [strcasecmp_eq_zero_iff a lit ha hlit, strcasecmp_eq_zero_iff b lit hb hlit, hab]

/-- C16 (as the claim states it, refuted): the name `foo` equals none of the fixed
names `android`, `data`, `obb`, `media` in any case, and below a `PreRoot` parent
the child is classified `Root`, not left `Inherit`. -/
theorem unmatched_name_below_pre_root :
    "foo".data.map tolower ≠ "android".data
    ∧ "foo".data.map tolower ≠ "data".data
    ∧ "foo".data.map tolower ≠ "obb".data
    ∧ "foo".data.map tolower ≠ "media".data
    ∧ (get_derived_permission_new sample_env sample_sbi pre_root fresh "foo".data).perm
        = PERM_ROOT
    ∧ (get_derived_permission_new sample_env sample_sbi pre_root fresh "foo".data).perm
        ≠ PERM_INHERIT := by
  decide

/-- C16 (amended): for every parent state and two names that differ only in the
case of ASCII letters the derived class and `under_android` flag are the same; a
name that equals `android` in any case gives `Android` below a `Root` parent, and
`data`, `obb`, `media` give the three leaf classes below an `Android` parent; a
name that equals none of the four fixed names leaves the child `Inherit` unless
the parent is `PreRoot`, whose child is always `Root`. -/
theorem derive_ignores_case (env : Collab) (sbi : sdcardfs_sb_info)
    (parent_info info : sdcardfs_inode_data) (a b : List Char)
    (ha : NUL ∉ a) (hb : NUL ∉ b) (hab : a.map tolower = b.map tolower) :
    (get_derived_permission_new env sbi parent_info info a).perm
        = (get_derived_permission_new env sbi parent_info info b).perm
    ∧ (get_derived_permission_new env sbi parent_info info a).under_android
        = (get_derived_permission_new env sbi parent_info info b).under_android
    ∧ (parent_info.perm = PERM_ROOT → a.map tolower = "android".data →
        (get_derived_permission_new env sbi parent_info info a).perm = PERM_ANDROID)
    ∧ (parent_info.perm = PERM_ANDROID → a.map tolower = "data".data →
        (get_derived_permission_new env sbi parent_info info a).perm = PERM_ANDROID_DATA)
    ∧ (parent_info.perm = PERM_ANDROID → a.map tolower = "obb".data →
        (get_derived_permission_new env sbi parent_info info a).perm = PERM_ANDROID_OBB)
    ∧ (parent_info.perm = PERM_ANDROID → a.map tolower = "media".data →
        (get_derived_permission_new env sbi parent_info info a).perm = PERM_ANDROID_MEDIA)
    ∧ (parent_info.perm ≠ PERM_PRE_ROOT →
        a.map tolower ≠ "android".data → a.map tolower ≠ "data".data →
        a.map tolower ≠ "obb".data → a.map tolower ≠ "media".data →
        (get_derived_permission_new env sbi parent_info info a).perm = PERM_INHERIT)
    ∧ (parent_info.perm = PERM_PRE_ROOT →
        (get_derived_permission_new env sbi parent_info info a).perm = PERM_ROOT) := by
  have hA := strcasecmp_congr a b "Android".data ha hb (by decide) hab
  have hd := strcasecmp_congr a b "data".data ha hb (by decide) hab
  have ho := strcasecmp_congr a b "obb".data ha hb (by decide) hab
  have hm := strcasecmp_congr a b "media".data ha hb (by decide) hab
  have iA : strcasecmp a "Android".data = 0 ↔ a.map tolower = "android".data := by
    rw [strcasecmp_eq_zero_iff a "Android".data ha (by decide)]
    have : "Android".data.map tolower = "android".data := by decide
    rw [this]
  have id : strcasecmp a "data".data = 0 ↔ a.map tolower = "data".data := by
    rw [strcasecmp_eq_zero_iff a "data".data ha (by decide)]
    have : "data".data.map tolower = "data".data := by decide
    rw [this]
  have io : strcasecmp a "obb".data = 0 ↔ a.map tolower = "obb".data :=
    strcasecmp_obb_iff a ha
  have im : strcasecmp a "media".data = 0 ↔ a.map tolower = "media".data := by
    rw [strcasecmp_eq_zero_iff a "media".data ha (by decide)]
    have : "media".data.map tolower = "media".data := by decide
    rw [this]
  have hpa := derive_perm_cases env sbi parent_info info a
  have hpb := derive_perm_cases env sbi parent_info info b
  have hperm : (get_derived_permission_new env sbi parent_info info a).perm
      = (get_derived_permission_new env sbi parent_info info b).perm := by
    rw [hpa, hpb]
    simp only [hA, hd, ho, hm]
  refine ⟨hperm, ?_, ?_, ?_, ?_, ?_, ?_, ?_⟩
  · rw [derive_under_android env sbi parent_info info a,
      derive_under_android env sbi parent_info info b, hperm]
  · intro hp hn
    rw [hpa, hp]
    simp [iA.2 hn]
  · intro hp hn
    rw [hpa, hp]
    simp [id.2 hn]
  · intro hp hn
    have hnd : ¬ strcasecmp a "data".data = 0 := by
      rw [id, hn]; decide
    rw [hpa, hp]
    simp only [hnd, if_false, io.2 hn, if_true]
  · intro hp hn
    have hnd : ¬ strcasecmp a "data".data = 0 := by
      rw [id, hn]; decide
    have hno : ¬ strcasecmp a "obb".data = 0 := by
      rw [io, hn]; decide
    rw [hpa, hp]
    simp only [hnd, hno, if_false, im.2 hn, if_true]
  · intro hp h1 h2 h3 h4
    have g1 : ¬ strcasecmp a "Android".data = 0 := fun h => h1 (iA.1 h)
    have g2 : ¬ strcasecmp a "data".data = 0 := fun h => h2 (id.1 h)
    have g3 : ¬ strcasecmp a "obb".data = 0 := fun h => h3 (io.1 h)
    have g4 : ¬ strcasecmp a "media".data = 0 := fun h => h4 (im.1 h)
    rw [hpa]
    cases hq : parent_info.perm <;> simp only [g1, g2, g3, g4, if_false]
    exact absurd hq hp
  · intro hp
    rw [hpa, hp]

/-- C16 (amended) at the names `ANDROID` and `android`. -/
theorem derive_ignores_case_witness :
    (get_derived_permission_new sample_env sample_sbi { fresh with perm := PERM_ROOT } fresh
        "ANDROID".data).perm
      = (get_derived_permission_new sample_env sample_sbi { fresh with perm := PERM_ROOT } fresh
        "android".data).perm
    ∧ (get_derived_permission_new sample_env sample_sbi { fresh with perm := PERM_ROOT } fresh
        "ANDROID".data).perm = PERM_ANDROID :=
  have h := derive_ignores_case sample_env sample_sbi { fresh with perm := PERM_ROOT } fresh
    "ANDROID".data "android".data (by decide) (by decide) (by decide)
  ⟨h.1, h.2.2.1 rfl (by decide)⟩

/-! ## Staleness of the obb binding -/

/-- C17 (as the claim states it, refuted): both paths are recorded, the lower
dentry is still hashed, and the text of the lower path differs from the configured
obb path, yet only in letter case: the binding is reported valid. -/
theorem case_difference_is_not_stale :
    sample_dcache.d_path { mnt := 1, dentry := 9 } ≠ sample_sbi.obbpath_s
    ∧ (sample_dcache.d_path { mnt := 1, dentry := 9 }).map tolower
        = sample_sbi.obbpath_s.map tolower
    ∧ bound.orig_path ≠ none
    ∧ is_obbpath_invalid sample_dcache sample_sbi bound = 0 := by
  decide

/-- C17 (amended): `is_obbpath_invalid` returns 0 for a dentry without `orig_path`;
with an `orig_path` it returns 1 when there is no `lower_path`, when the path
buffer cannot be allocated, when the lower dentry is unhashed, or when the text of
the lower path differs from the configured obb path by more than the case of ASCII
letters; it returns 0 when the `lower_path` is there, the buffer is allocated, the
dentry is hashed and the two texts agree up to the case of ASCII letters. -/
theorem is_obbpath_invalid_cases (dc : Dcache) (sbi : sdcardfs_sb_info)
    (di : sdcardfs_dentry_info)
    (hobb : NUL ∉ sbi.obbpath_s) (hpath : ∀ p : path, NUL ∉ dc.d_path p) :
    (di.orig_path = none → is_obbpath_invalid dc sbi di = 0)
    ∧ (di.orig_path ≠ none → di.lower_path = none → is_obbpath_invalid dc sbi di = 1)
    ∧ (∀ lower_path : path, di.orig_path ≠ none → di.lower_path = some lower_path →
        (dc.kmalloc_ok = false ∨ dc.d_unhashed lower_path.dentry = true
          ∨ sbi.obbpath_s.map tolower ≠ (dc.d_path lower_path).map tolower) →
        is_obbpath_invalid dc sbi di = 1)
    ∧ (∀ lower_path : path, di.orig_path ≠ none → di.lower_path = some lower_path →
        dc.kmalloc_ok = true → dc.d_unhashed lower_path.dentry = false →
        sbi.obbpath_s.map tolower = (dc.d_path lower_path).map tolower →
        is_obbpath_invalid dc sbi di = 0) := by
  refine ⟨?_, ?_, ?_, ?_⟩
  · intro h
    simp [is_obbpath_invalid, h]
  · intro h1 h2
    cases ho : di.orig_path with
    | none => exact absurd ho h1
    | some op => simp [is_obbpath_invalid, ho, h2]
  · intro lp h1 h2 h3
    have hcmp := strcasecmp_eq_zero_iff sbi.obbpath_s (dc.d_path lp) hobb (hpath lp)
    cases ho : di.orig_path with
    | none => exact absurd ho h1
    | some op =>
      simp only [is_obbpath_invalid, ho, h2]
      rcases h3 with h | h | h
      · simp [h]
      · by_cases hk : dc.kmalloc_ok = false <;> simp [hk, h]
      · have hne : strcasecmp sbi.obbpath_s (dc.d_path lp) ≠ 0 := fun hz => h (hcmp.1 hz)
        by_cases hk : dc.kmalloc_ok = false <;> simp [hk, hne]
  · intro lp h1 h2 hk hu heq
    have hcmp := strcasecmp_eq_zero_iff sbi.obbpath_s (dc.d_path lp) hobb (hpath lp)
    cases ho : di.orig_path with
    | none => exact absurd ho h1
    | some op =>
      simp [is_obbpath_invalid, ho, h2, hk, hu, hcmp.2 heq]

/-- C17 (amended) at a dentry with both paths recorded whose lower path reads
`/DATA/MEDIA/OBB` while `/data/media/obb` is configured. -/
theorem is_obbpath_invalid_cases_witness :
    is_obbpath_invalid sample_dcache sample_sbi bound = 0 :=
  (is_obbpath_invalid_cases sample_dcache sample_sbi bound (by decide)
    (fun _ => (by decide : NUL ∉ "/DATA/MEDIA/OBB".data))).2.2.2 { mnt := 1, dentry := 9 } (by decide) rfl rfl rfl (by decide)

/-! ## Chains of derivations -/

theorem derive_path_append (env : Collab) (sbi : sdcardfs_sb_info)
    (start : sdcardfs_inode_data) (s1 s2 : List (sdcardfs_inode_data × List Char)) :
    derive_path env sbi start (s1 ++ s2)
      = derive_path env sbi (derive_path env sbi start s1) s2 := by
  induction s1 generalizing start with
  | nil => rfl
  | cons x xs ih =>
    obtain ⟨info, name⟩ := x
    simp only [List.cons_append, derive_path]
    exact ih _

/-- The flag of the node a chain ends in: the flag of the start, or some node of
the chain was classified `Android`. -/
theorem derive_path_under_android (env : Collab) (sbi : sdcardfs_sb_info)
    (start : sdcardfs_inode_data) (steps : List (sdcardfs_inode_data × List Char)) :
    (derive_path env sbi start steps).under_android = true
      ↔ start.under_android = true
        ∨ ∃ x ∈ derive_chain env sbi start steps, x.perm = PERM_ANDROID := by
  induction steps generalizing start with
  | nil => simp [derive_path, derive_chain]
  | cons x xs ih =>
    obtain ⟨info, name⟩ := x
    simp only [derive_path, derive_chain, List.mem_cons, exists_eq_or_imp]
    rw [ih, derive_under_android env sbi start info name]
    simp only [Bool.or_eq_true, decide_eq_true_eq]
    tauto

/-- C19: along every chain of derivations from a node whose `under_android` flag
is not set (the `PreRoot` root), the flag of the node the chain ends in is set
exactly when that node or a node before it in the chain was classified `Android`;
and once the flag is set for a node it is set for every node derived below it. -/
theorem under_android_iff_android_ancestor (env : Collab) (sbi : sdcardfs_sb_info)
    (start : sdcardfs_inode_data) (steps more : List (sdcardfs_inode_data × List Char))
    (hflag : start.under_android = false) :
    ((derive_path env sbi start steps).under_android = true
        ↔ ∃ x ∈ derive_chain env sbi start steps, x.perm = PERM_ANDROID)
    ∧ ((derive_path env sbi start steps).under_android = true →
        (derive_path env sbi start (steps ++ more)).under_android = true) := by
  refine ⟨?_, ?_⟩
  · rw [derive_path_under_android, hflag]
    simp
  · intro h
    rw [derive_path_append, derive_path_under_android]
    exact Or.inl h

/-- C19 at `0/Android/data`: the flag is set for `data` and still set for the
package directory below it. -/
theorem under_android_iff_android_ancestor_witness :
    (derive_path sample_env sample_sbi pre_root
        ([(fresh, "0".data), (fresh, "Android".data), (fresh, "data".data)]
          ++ [(fresh, "com.example.app".data)])).under_android = true :=
  (under_android_iff_android_ancestor sample_env sample_sbi pre_root
    [(fresh, "0".data), (fresh, "Android".data), (fresh, "data".data)]
    [(fresh, "com.example.app".data)] rfl).2 (by decide)

/-- One derivation keeps the resolved class at least as deep. -/
theorem derive_depth_step (env : Collab) (sbi : sdcardfs_sb_info)
    (parent_info info : sdcardfs_inode_data) (name : List Char) (anc : perm_t)
    (hok : resolves_to parent_info.perm anc = true) :
    class_depth anc
        ≤ class_depth
            (if (get_derived_permission_new env sbi parent_info info name).perm = PERM_INHERIT
              then anc else (get_derived_permission_new env sbi parent_info info name).perm)
    ∧ resolves_to (get_derived_permission_new env sbi parent_info info name).perm
        (if (get_derived_permission_new env sbi parent_info info name).perm = PERM_INHERIT
          then anc else (get_derived_permission_new env sbi parent_info info name).perm)
        = true := by
  have hc := derive_perm_cases env sbi parent_info info name
  generalize (get_derived_permission_new env sbi parent_info info name).perm = c at hc ⊢
  revert hok hc
  cases parent_info.perm <;> cases anc <;> simp only [] <;> intro hok hc <;>
    first
      | exact absurd hok (by decide)
      | (subst hc; decide)
      | (split_ifs at hc <;> subst hc <;> decide)

theorem resolve_chain_monotone (env : Collab) (sbi : sdcardfs_sb_info)
    (start : sdcardfs_inode_data) (steps : List (sdcardfs_inode_data × List Char))
    (anc : perm_t) (hok : resolves_to start.perm anc = true) :
    List.Chain (fun a b => class_depth a ≤ class_depth b) anc
      (resolve_chain anc ((derive_chain env sbi start steps).map (fun d => d.perm))) := by
  induction steps generalizing start anc with
  | nil => exact List.Chain.nil
  | cons x xs ih =>
    obtain ⟨info, name⟩ := x
    have hstep := derive_depth_step env sbi start info name anc hok
    simp only [derive_chain, List.map_cons, resolve_chain]
    exact List.Chain.cons hstep.1 (ih _ _ hstep.2)

/-- Below a node whose class is not `PreRoot`, `Root` or `Android`, every node of a
chain has class `Inherit`. -/
theorem derive_chain_all_inherit (env : Collab) (sbi : sdcardfs_sb_info)
    (start : sdcardfs_inode_data) (steps : List (sdcardfs_inode_data × List Char))
    (h : start.perm ≠ PERM_PRE_ROOT ∧ start.perm ≠ PERM_ROOT ∧ start.perm ≠ PERM_ANDROID) :
    ∀ x ∈ derive_chain env sbi start steps, x.perm = PERM_INHERIT := by
  induction steps generalizing start with
  | nil => simp [derive_chain]
  | cons x xs ih =>
    obtain ⟨info, name⟩ := x
    have hc : (get_derived_permission_new env sbi start info name).perm = PERM_INHERIT := by
      rw [derive_perm_cases env sbi start info name]
      obtain ⟨h1, h2, h3⟩ := h
      revert h1 h2 h3
      cases start.perm <;> simp
    intro y hy
    simp only [derive_chain, List.mem_cons] at hy
    rcases hy with rfl | hy
    · exact hc
    · exact ih _ (by simp [hc]) y hy

theorem resolve_chain_of_inherit (anc : perm_t) (l : List perm_t)
    (h : ∀ c ∈ l, c = PERM_INHERIT) : ∀ c ∈ resolve_chain anc l, c = anc := by
  induction l with
  | nil => simp [resolve_chain]
  | cons p ps ih =>
    have hp : p = PERM_INHERIT := h p (by simp)
    subst hp
    intro c hc
    simp only [resolve_chain, if_true, List.mem_cons] at hc
    rcases hc with rfl | hc
    · rfl
    · exact ih (fun c hc => h c (by simp [hc])) c hc

/-- C15: along every chain of derivations from a `PreRoot` or `Root` node, with
every `Inherit` resolved to the class of the nearest ancestor that is not
`Inherit`, each node is at least as deep as the node before it in the order
`PreRoot < Root < Android <` leaf classes; and every node derived below an
`AndroidData` node of the chain has class `Inherit` (resolved: `AndroidData`), so
none is classified `Android`, `Root` or `PreRoot`. -/
theorem class_depth_monotone (env : Collab) (sbi : sdcardfs_sb_info)
    (start : sdcardfs_inode_data) (steps : List (sdcardfs_inode_data × List Char))
    (hstart : start.perm = PERM_PRE_ROOT ∨ start.perm = PERM_ROOT) :
    List.Chain (fun a b => class_depth a ≤ class_depth b) start.perm
      (resolve_chain start.perm ((derive_chain env sbi start steps).map (fun d => d.perm)))
    ∧ (∀ s1 s2 : List (sdcardfs_inode_data × List Char), steps = s1 ++ s2 →
        (derive_path env sbi start s1).perm = PERM_ANDROID_DATA →
        (∀ x ∈ derive_chain env sbi (derive_path env sbi start s1) s2,
          x.perm = PERM_INHERIT ∧ x.perm ≠ PERM_ANDROID ∧ x.perm ≠ PERM_ROOT
            ∧ x.perm ≠ PERM_PRE_ROOT)
        ∧ (∀ c ∈ resolve_chain PERM_ANDROID_DATA
              ((derive_chain env sbi (derive_path env sbi start s1) s2).map (fun d => d.perm)),
            c = PERM_ANDROID_DATA)) := by
  refine ⟨?_, ?_⟩
  · apply resolve_chain_monotone
    rcases hstart with h | h <;> rw [h] <;> decide
  · intro s1 s2 _ hdata
    have hall := derive_chain_all_inherit env sbi (derive_path env sbi start s1) s2
      (by rw [hdata]; decide)
    refine ⟨?_, ?_⟩
    · intro x hx
      have := hall x hx
      simp [this]
    · apply resolve_chain_of_inherit
      intro c hc
      simp only [List.mem_map] at hc
      obtain ⟨x, hx, rfl⟩ := hc
      exact hall x hx

/-- C15 along `0/Android/data/com.example.app/cache` from the `PreRoot` root: the
resolved classes are `Root`, `Android`, `AndroidData`, `AndroidData`,
`AndroidData`. -/
theorem class_depth_monotone_witness :
    resolve_chain PERM_PRE_ROOT
        ((derive_chain sample_env sample_sbi pre_root
          [(fresh, "0".data), (fresh, "Android".data), (fresh, "data".data),
           (fresh, "com.example.app".data), (fresh, "cache".data)]).map (fun d => d.perm))
      = [PERM_ROOT, PERM_ANDROID, PERM_ANDROID_DATA, PERM_ANDROID_DATA, PERM_ANDROID_DATA]
    ∧ List.Chain (fun a b => class_depth a ≤ class_depth b) pre_root.perm
        (resolve_chain pre_root.perm
          ((derive_chain sample_env sample_sbi pre_root
            [(fresh, "0".data), (fresh, "Android".data), (fresh, "data".data),
             (fresh, "com.example.app".data), (fresh, "cache".data)]).map (fun d => d.perm))) :=
  ⟨by decide,
   (class_depth_monotone sample_env sample_sbi pre_root
      [(fresh, "0".data), (fresh, "Android".data), (fresh, "data".data),
       (fresh, "com.example.app".data), (fresh, "cache".data)] (Or.inl rfl)).1⟩

/-! ## The refresh of one node and of a subtree -/

/-- C13 (code at the failing input): below the directory of user 0 (class `Root`)
a dentry named `Android` ought to be classified `Android` and a dentry named
`Music` left `Inherit`. The walk reads neither name: whatever lies in place of
the name, both children get the same class or the walk faults for both; with `x`
found there the child `Android` is left `Inherit`, with `Android` found there
the child `Music` is classified `Android`, and with an unreadable address the
walk does not return. -/
theorem recursive_refresh_reads_stray_name :
    (get_derived_permission_new sample_env sample_sbi user_root fresh "Android".data).perm
        = PERM_ANDROID
    ∧ (get_derived_permission_new sample_env sample_sbi user_root fresh "Music".data).perm
        = PERM_INHERIT
    ∧ (∀ stray_name : Option (List Char),
        child_class (get_derive_permissions_recursive sample_env sample_sbi sample_fix
            (user_dir_with "Android".data stray_name)) 0
          = child_class (get_derive_permissions_recursive sample_env sample_sbi sample_fix
            (user_dir_with "Music".data stray_name)) 0)
    ∧ child_class (get_derive_permissions_recursive sample_env sample_sbi sample_fix
          (user_dir_with "Android".data (some "x".data))) 0 = some PERM_INHERIT
    ∧ child_class (get_derive_permissions_recursive sample_env sample_sbi sample_fix
          (user_dir_with "Music".data (some "Android".data))) 0 = some PERM_ANDROID
    ∧ (get_derive_permissions_recursive sample_env sample_sbi sample_fix
          (user_dir_with "Android".data none)).isNone = true := by
  refine ⟨by decide, by decide, ?_, by decide, by decide, by decide⟩
  intro stray_name
  cases stray_name <;> rfl

/-- C14 (code at the failing input): a node that is not the root, below the
directory of user 0 (class `Root`), named `Android`, ought to be classified
`Android` by a refresh. The refresh does not read the name: with the same parent
state and registry the class after the call is `Inherit` when `x` is found in
place of the name and `Android` when `Android` is found there, and with an
unreadable address the call does not return. -/
theorem refresh_reads_stray_name :
    (get_derived_permission_new sample_env sample_sbi user_root fresh "Android".data).perm
        = PERM_ANDROID
    ∧ refreshed_class (update_derived_permission_lock sample_env sample_sbi sample_fix false
          user_root (some "x".data) (some (inode_of fresh))) = some PERM_INHERIT
    ∧ refreshed_class (update_derived_permission_lock sample_env sample_sbi sample_fix false
          user_root (some "Android".data) (some (inode_of fresh))) = some PERM_ANDROID
    ∧ (update_derived_permission_lock sample_env sample_sbi sample_fix false
          user_root none (some (inode_of fresh))).isNone = true := by
  decide

end Sdcardfs
